import Mathlib

/-!
Shallow embedding of the analysis core of the Airline Booking Market Demand
webapp (src/data_processor.py, src/config.py and the `filter_data` function of
src/app.py), together with theorems settling the frozen claims C1-C10.

Modelling conventions, stated once:
* A pandas DataFrame is a `DF`: a list of `Row`s plus a `Cols` record of
  booleans saying which columns are present.  A cell of an optional column
  (price, flight_date, ...) is an `Option`; `none` plays the role of NaN/NaT.
* Prices and all numeric aggregates are exact rationals, represented by the
  kernel-computable type `Q` below.  `meanQ`, `medianQ` and `quantileQ`
  follow pandas: NaN values are skipped, quantiles use linear interpolation,
  and an aggregate of an empty list is `none` (NaN).
* Python `round` is banker's rounding; `roundHalfEven` models it exactly.
* Code paths that raise (`KeyError` from `groupby`/`drop_duplicates`/`agg` on
  a missing column, `IndexError` from `.iloc`, `ValueError` from `idxmax` on
  an empty series or `datetime()` on an out-of-range month) are modelled with
  `Except String`; the string names the Python exception.
* `flight_date` cells are already structured `Date` values; whether the column
  has datetime dtype is the flag `DF.dateParsed`, and whether `pd.to_datetime`
  would succeed on it is the input attribute `DF.dateParseable` (the claims
  under verification do not depend on the details of string date parsing).
* pandas `groupby(sort=True)` iterates keys in ascending order; `sort_values`
  and `value_counts` use an unstable sort whose tie order is implementation
  defined (the repository spec flags this as an open question), so the
  embedding pins ties with a stable insertion sort; every property proved
  below is insensitive to that tie order.
-/

namespace AirlineDemand

/-! ### Exact rationals

`Q` is a rational number `num / den`.  Every value the embedding constructs
goes through `normQ` and is therefore reduced with a positive denominator, so
structural (decidable) equality coincides with rational equality on all
computed values.  Division by zero yields 0 wherever the surrounding code has
not already guarded the denominator (each such guard is modelled explicitly at
its use site). -/

structure Q where
  num : Int
  den : Nat
deriving DecidableEq, Repr

/-- Build the reduced representation of `n / d`. -/
def normQ (n : Int) (d : Nat) : Q :=
  if d = 0 then ⟨0, 1⟩
  else
    let g := n.natAbs.gcd d
    ⟨n / (g : Int), d / g⟩

/-- Build `n / d` for an integer denominator. -/
def normQI (n d : Int) : Q :=
  if d < 0 then normQ (-n) (-d).toNat else normQ n d.toNat

instance (n : Nat) : OfNat Q n := ⟨⟨(n : Int), 1⟩⟩

/-- Cast a count to a rational. -/
def natQ (n : Nat) : Q := ⟨(n : Int), 1⟩

instance : Add Q := ⟨fun a b => normQ (a.num * b.den + b.num * a.den) (a.den * b.den)⟩

instance : Sub Q := ⟨fun a b => normQ (a.num * b.den - b.num * a.den) (a.den * b.den)⟩

instance : Mul Q := ⟨fun a b => normQ (a.num * b.num) (a.den * b.den)⟩

instance : Div Q := ⟨fun a b => normQI (a.num * b.den) ((a.den : Int) * b.num)⟩

instance : LE Q := ⟨fun a b => a.num * (b.den : Int) ≤ b.num * (a.den : Int)⟩

instance : LT Q := ⟨fun a b => ¬ b ≤ a⟩

instance : DecidableRel (fun a b : Q => a ≤ b) :=
  fun a b => Int.decLe (a.num * (b.den : Int)) (b.num * (a.den : Int))

instance : DecidableRel (fun a b : Q => a < b) :=
  fun _ _ => instDecidableNot

instance : Min Q := ⟨fun a b => if a ≤ b then a else b⟩

instance : Max Q := ⟨fun a b => if a ≤ b then b else a⟩

/-- Sum of a list of rationals. -/
def sumQ (xs : List Q) : Q := xs.foldl (· + ·) 0

/-- Floor of a rational. -/
def floorQ (a : Q) : Int := Int.fdiv a.num (a.den : Int)

/-! ### Rational aggregates: mean, median, quantile, rounding -/

/-- Arithmetic mean; `none` on the empty list (pandas `Series.mean` of no
values is NaN). -/
def meanQ (xs : List Q) : Option Q :=
  if xs.isEmpty then none else some (sumQ xs / natQ xs.length)

/-- Ascending, stable sort of rationals. -/
def sortQ (xs : List Q) : List Q :=
  List.insertionSort (fun a b : Q => a ≤ b) xs

/-- pandas `Series.quantile` with the default linear interpolation, for
`q ∈ [0,1]`: position `h = q·(n−1)`, linearly interpolating between the
floor and ceiling positions of the ascending sort. -/
def quantileQ (xs : List Q) (q : Q) : Option Q :=
  match sortQ xs with
  | [] => none
  | y :: ys =>
    let s := y :: ys
    let n := s.length
    let h : Q := q * (natQ n - 1)
    let i : Nat := (floorQ h).toNat
    let lo := s.getD i 0
    let hi := s.getD (min (i + 1) (n - 1)) 0
    some (lo + (h - natQ i) * (hi - lo))

/-- pandas `Series.median` = 0.5-quantile (average of the two middle
elements for an even count). -/
def medianQ (xs : List Q) : Option Q := quantileQ xs (1/2)

/-- Python `round` to an integer: round half to even. -/
def roundHalfEven (x : Q) : Int :=
  let f := floorQ x
  let r := x - ⟨f, 1⟩
  if r < 1/2 then f
  else if 1/2 < r then f + 1
  else if f % 2 = 0 then f else f + 1

/-- Python `round(x, 1)`. -/
def roundQ1 (x : Q) : Q := normQI (roundHalfEven (x * 10)) 10

/-- Python `round(x, 2)`. -/
def roundQ2 (x : Q) : Q := normQI (roundHalfEven (x * 100)) 100

/-! ### Ordering helpers

pandas sorts strings by code point; the library `String` order is opaque to
the kernel, so the same order is defined here on the character lists. -/

/-- Code-point lexicographic strict order on character lists. -/
def charListLtB : List Char → List Char → Bool
  | [], [] => false
  | [], _ :: _ => true
  | _ :: _, [] => false
  | a :: as, b :: bs =>
    decide (a.toNat < b.toNat) || (a.toNat == b.toNat && charListLtB as bs)

/-- Strict code-point order on strings. -/
def strLtB (a b : String) : Bool := charListLtB a.data b.data

/-- Non-strict code-point order on strings. -/
def strLeB (a b : String) : Bool := strLtB a b || a == b

/-- Stable sort by a boolean relation (pins the implementation-defined tie
order of the source's unstable sorts; see the header note). -/
def sortBy {α : Type} (rel : α → α → Bool) (l : List α) : List α :=
  List.insertionSort (fun a b => rel a b = true) l

/-- Distinct elements of a list, keeping the first occurrence of each. -/
def uniqAux {κ : Type} [DecidableEq κ] (acc : List κ) : List κ → List κ
  | [] => acc.reverse
  | x :: t => if acc.contains x then uniqAux acc t else uniqAux (x :: acc) t

/-- Distinct elements of a list in order of first appearance. -/
def uniqFirst {κ : Type} [DecidableEq κ] (xs : List κ) : List κ := uniqAux [] xs

/-! ### Calendar dates

`flight_date` values after parsing.  `dayOfWeek` follows pandas
`Series.dt.dayofweek` (0 = Monday .. 6 = Sunday); the ISO week/year pair
follows `Series.dt.isocalendar()`. -/

structure Date where
  year : Int
  month : Nat
  day : Nat
deriving DecidableEq, Repr

/-- Leap year in the proleptic Gregorian calendar. -/
def isLeap (y : Int) : Bool :=
  (y % 4 == 0 && y % 100 != 0) || (y % 400 == 0)

/-- Days in a month. -/
def monthLength (y : Int) (m : Nat) : Nat :=
  if m = 2 then (if isLeap y then 29 else 28)
  else if m ∈ [4, 6, 9, 11] then 30 else 31

/-- 1-based ordinal day within the year. -/
def dayOfYear (d : Date) : Nat :=
  (List.range (d.month - 1)).foldl (fun acc i => acc + monthLength d.year (i + 1)) d.day

/-- Days since 1970-01-01 (civil-days algorithm, floor division). -/
def daysFromCivil (d : Date) : Int :=
  let y : Int := if d.month ≤ 2 then d.year - 1 else d.year
  let era : Int := Int.fdiv y 400
  let yoe : Int := y - era * 400
  let mp : Int := if 2 < d.month then (d.month : Int) - 3 else (d.month : Int) + 9
  let doy : Int := Int.fdiv (153 * mp + 2) 5 + (d.day : Int) - 1
  let doe : Int := yoe * 365 + Int.fdiv yoe 4 - Int.fdiv yoe 100 + doy
  era * 146097 + doe - 719468

/-- pandas `dt.dayofweek`: 0 = Monday .. 6 = Sunday
(1970-01-01 was a Thursday, i.e. 3). -/
def dayOfWeek (d : Date) : Nat :=
  (Int.emod (daysFromCivil d + 3) 7).toNat

/-- Helper for the ISO-8601 week rule: a year has 53 ISO weeks iff
`isoP y = 4` or `isoP (y-1) = 3`. -/
def isoP (y : Int) : Int :=
  Int.emod (y + Int.fdiv y 4 - Int.fdiv y 100 + Int.fdiv y 400) 7

/-- Number of ISO weeks in year `y` (52 or 53). -/
def isoWeeksInYear (y : Int) : Nat :=
  if isoP y = 4 ∨ isoP (y - 1) = 3 then 53 else 52

/-- ISO-8601 (year, week) of a date, as returned by `dt.isocalendar()`. -/
def isoYearWeek (d : Date) : Int × Nat :=
  let ord : Int := (dayOfYear d : Int)
  let wd : Int := (dayOfWeek d : Int) + 1
  let w : Int := Int.fdiv (ord - wd + 10) 7
  if w < 1 then (d.year - 1, isoWeeksInYear (d.year - 1))
  else if w > (isoWeeksInYear d.year : Int) then (d.year + 1, 1)
  else (d.year, w.toNat)

/-- Lexicographic order on dates (the order pandas sorts datetimes in). -/
def dateLe (a b : Date) : Bool :=
  decide (a.year < b.year) ||
    (a.year == b.year && (decide (a.month < b.month) ||
      (a.month == b.month && decide (a.day ≤ b.day))))

/-- `datetime(2000, m, 1).strftime('%B')`; `none` models the `ValueError`
`datetime` raises on a month outside 1..12. -/
def monthName (m : Nat) : Option String :=
  [(1, "January"), (2, "February"), (3, "March"), (4, "April"),
   (5, "May"), (6, "June"), (7, "July"), (8, "August"),
   (9, "September"), (10, "October"), (11, "November"),
   (12, "December")].lookup m

/-- The `day_names` dictionary of `data_processor.py` (`dict.get`: `none`
when the key is absent). -/
def dayNameMap (d : Nat) : Option String :=
  [(0, "Monday"), (1, "Tuesday"), (2, "Wednesday"), (3, "Thursday"),
   (4, "Friday"), (5, "Saturday"), (6, "Sunday")].lookup d

/-! ### Configuration (src/config.py) -/

/-- `config.AUSTRALIAN_CITIES`. -/
def AUSTRALIAN_CITIES : List (String × String) :=
  [("Sydney", "SYD"), ("Melbourne", "MEL"), ("Brisbane", "BNE"),
   ("Perth", "PER"), ("Adelaide", "ADL"), ("Darwin", "DRW"),
   ("Gold Coast", "OOL"), ("Cairns", "CNS"), ("Canberra", "CBR"),
   ("Hobart", "HBA")]

/-- `config.POPULAR_INTERNATIONAL_DESTINATIONS`. -/
def POPULAR_INTERNATIONAL_DESTINATIONS : List (String × String) :=
  [("Auckland", "AKL"), ("Singapore", "SIN"), ("Bali", "DPS"),
   ("Tokyo", "HND"), ("Hong Kong", "HKG"), ("Los Angeles", "LAX"),
   ("London", "LHR"), ("Dubai", "DXB"), ("Bangkok", "BKK"),
   ("Kuala Lumpur", "KUL")]

/-- `code in config.AUSTRALIAN_CITIES.values()`. -/
def isDomesticCode (code : String) : Bool :=
  (AUSTRALIAN_CITIES.map Prod.snd).contains code

/-- The `airport_to_city` mapping of `generate_summary_insights`: the
Australian map inverted, then updated with the international one
(later entries win, as with `dict.update`). -/
def airportToCity (code : String) : Option String :=
  match (POPULAR_INTERNATIONAL_DESTINATIONS.map (fun p => (p.2, p.1))).lookup code with
  | some c => some c
  | none => (AUSTRALIAN_CITIES.map (fun p => (p.2, p.1))).lookup code

/-! ### The tabular data model -/

/-- One row of the flight table.  Optional columns have `Option` cells
(`none` = NaN/NaT); `origin`/`destination` cells are plain strings (the
sources never produce null airport codes).  The trailing fields are the
columns derived by cleaning and by the mutating analysis passes; their
values are meaningful only when the corresponding `Cols` flag is set. -/
structure Row where
  flight_date : Option Date := none
  flight_time : Option String := none
  origin : String := ""
  destination : String := ""
  price : Option Q := none
  airline : Option String := none
  duration : Option Q := none
  is_domestic : Bool := false
  day_of_week : Option Nat := none
  month : Option Nat := none
  is_weekend : Bool := false
  week : Option Nat := none
  year : Option Int := none
  price_category : Option String := none
deriving DecidableEq, Repr

/-- Which columns the table currently has. -/
structure Cols where
  flight_date : Bool := false
  flight_time : Bool := false
  origin : Bool := false
  destination : Bool := false
  price : Bool := false
  airline : Bool := false
  duration : Bool := false
  is_domestic : Bool := false
  day_of_week : Bool := false
  month : Bool := false
  is_weekend : Bool := false
  week : Bool := false
  year : Bool := false
  price_category : Bool := false
deriving DecidableEq, Repr

/-- `len(df.columns)`. -/
def numCols (c : Cols) : Nat :=
  [c.flight_date, c.flight_time, c.origin, c.destination, c.price, c.airline,
   c.duration, c.is_domestic, c.day_of_week, c.month, c.is_weekend, c.week,
   c.year, c.price_category].countP id

/-- A DataFrame: column-presence flags, the dtype attributes of the
`flight_date` column, and the rows. -/
structure DF where
  cols : Cols := {}
  dateParsed : Bool := false
  dateParseable : Bool := false
  rows : List Row := []
deriving DecidableEq, Repr

/-- `pd.DataFrame()`: the empty frame `filter_data` returns. -/
def emptyDF : DF := {}

/-- Mask a row down to the columns in `c` (cells of absent columns are
reset to their defaults).  Used to state that a pass does not change any
pre-existing column. -/
def maskRow (c : Cols) (r : Row) : Row where
  flight_date := if c.flight_date then r.flight_date else none
  flight_time := if c.flight_time then r.flight_time else none
  origin := if c.origin then r.origin else ""
  destination := if c.destination then r.destination else ""
  price := if c.price then r.price else none
  airline := if c.airline then r.airline else none
  duration := if c.duration then r.duration else none
  is_domestic := if c.is_domestic then r.is_domestic else false
  day_of_week := if c.day_of_week then r.day_of_week else none
  month := if c.month then r.month else none
  is_weekend := if c.is_weekend then r.is_weekend else false
  week := if c.week then r.week else none
  year := if c.year then r.year else none
  price_category := if c.price_category then r.price_category else none

/-- All rows masked to the columns in `c`. -/
def maskDF (c : Cols) (df : DF) : List Row := df.rows.map (maskRow c)

/-! ### The Data Cleaner (`DataProcessor.clean_data`) -/

/-- `df.groupby(['origin','destination'])['price'].transform('median')` at one
row: the median over the non-null prices of the rows sharing the route. -/
def routeMedian (df : DF) (o d : String) : Option Q :=
  medianQ ((df.rows.filter
    (fun s => s.origin == o && s.destination == d)).filterMap (·.price))

/-- First `fillna`: fill each missing price with its route median (a row whose
route has no priced rows keeps NaN, since its transform value is NaN). -/
def fillRouteMedians (df : DF) : List Row :=
  df.rows.map (fun r =>
    if r.price.isSome then r
    else
      match routeMedian df r.origin r.destination with
      | some m => { r with price := some m }
      | none => r)

/-- Second `fillna`: remaining NaNs get the median of the price column *as it
stands after the route fill* (`df['price'].median()` is re-evaluated on the
partially filled column; `fillna(NaN)` is a no-op). -/
def fillGlobalMedian (rows : List Row) : List Row :=
  match medianQ (rows.filterMap (·.price)) with
  | some g => rows.map (fun r => if r.price.isSome then r else { r with price := some g })
  | none => rows

/-- Lines 46-51: price imputation.  The `groupby` raises `KeyError` when the
price column has NaNs but `origin`/`destination` are absent. -/
def imputePrices (df : DF) : Except String DF :=
  if df.cols.price && df.rows.any (fun r => r.price.isNone) then
    if df.cols.origin && df.cols.destination then
      .ok { df with rows := fillGlobalMedian (fillRouteMedians df) }
    else .error "KeyError: groupby on origin, destination"
  else .ok df

/-- Lines 53-58: `pd.to_datetime` on the `flight_date` column, non-fatal on
failure (the except branch only logs a warning). -/
def convertDates (df : DF) : DF :=
  if df.cols.flight_date && (df.dateParsed || df.dateParseable) then
    { df with dateParsed := true }
  else df

/-- The five-column identity key of `drop_duplicates`. -/
def dupKey (r : Row) : Option Date × Option String × String × String × Option String :=
  (r.flight_date, r.flight_time, r.origin, r.destination, r.airline)

/-- `drop_duplicates(keep='first')`: keep the first row of each key. -/
def dedupRowsAux (seen : List (Option Date × Option String × String × String × Option String)) :
    List Row → List Row
  | [] => []
  | r :: rs =>
    if seen.contains (dupKey r) then dedupRowsAux seen rs
    else r :: dedupRowsAux (dupKey r :: seen) rs

/-- Lines 60-63: deduplication, attempted whenever the table has more than 3
columns; `drop_duplicates` raises `KeyError` if any of the five subset
columns is missing. -/
def dedupStep (df : DF) : Except String DF :=
  if 3 < numCols df.cols then
    if df.cols.flight_date && df.cols.flight_time && df.cols.origin &&
        df.cols.destination && df.cols.airline then
      .ok { df with rows := dedupRowsAux [] df.rows }
    else .error "KeyError: drop_duplicates subset columns missing"
  else .ok df

/-- Lines 65-77: IQR outlier removal over the current price column.  A NaN
quartile (all-NaN column) makes both comparisons False, emptying the table;
a NaN price likewise fails both comparisons and the row is dropped. -/
def removeOutliers (df : DF) : DF :=
  if df.cols.price then
    let ps := df.rows.filterMap (·.price)
    match quantileQ ps (1/4), quantileQ ps (3/4) with
    | some q1, some q3 =>
      let iqr := q3 - q1
      let lower := q1 - 3/2 * iqr
      let upper := q3 + 3/2 * iqr
      { df with rows := df.rows.filter (fun r =>
          match r.price with
          | some p => decide (lower ≤ p) && decide (p ≤ upper)
          | none => false) }
    | _, _ => { df with rows := [] }
  else df

/-- Lines 79-83: derive `day_of_week`, `month`, `is_weekend` when the
`flight_date` column has datetime dtype (a NaT date yields NaN for the
first two and `False` for `isin`). -/
def deriveCalendar (df : DF) : DF :=
  if df.cols.flight_date && df.dateParsed then
    { df with
      cols := { df.cols with day_of_week := true, month := true, is_weekend := true }
      rows := df.rows.map (fun r =>
        match r.flight_date with
        | some d =>
          { r with
            day_of_week := some (dayOfWeek d)
            month := some d.month
            is_weekend := dayOfWeek d == 5 || dayOfWeek d == 6 }
        | none => { r with day_of_week := none, month := none, is_weekend := false }) }
  else df

/-- The body of `clean_data` on a non-empty table (lines 43-86). -/
def cleanTable (df : DF) : Except String DF := do
  let df1 ← imputePrices df
  let df2 := convertDates df1
  let df3 ← dedupStep df2
  .ok (deriveCalendar (removeOutliers df3))

/-- `DataProcessor.clean_data`: argument is `self.raw_data`, result is the
`self.processed_data` slot after the call (`none` both for a null raw table
and for an empty one, where the method only logs a warning and leaves the
processor unchanged). -/
def clean_data (raw : Option DF) : Except String (Option DF) :=
  match raw with
  | none => .ok none
  | some df =>
    if df.rows.isEmpty then .ok none
    else (cleanTable df).map some

/-! ### Grouping helpers -/

/-- `Series.value_counts()`: pairs (value, multiplicity), most frequent
first (ties in first-appearance order; see the header note). -/
def valueCounts {κ : Type} [DecidableEq κ] (xs : List κ) : List (κ × Nat) :=
  sortBy (fun a b => decide (b.2 ≤ a.2))
    ((uniqFirst xs).map (fun k => (k, xs.count k)))

/-- Lexicographic order on (origin, destination) pairs: the ascending key
order of `groupby(['origin','destination'], sort=True)`. -/
def pairLe (a b : String × String) : Bool :=
  strLtB a.1 b.1 || (a.1 == b.1 && strLeB a.2 b.2)

/-- The distinct (origin, destination) keys in ascending order. -/
def routePairs (df : DF) : List (String × String) :=
  uniqFirst (sortBy pairLe (df.rows.map (fun r => (r.origin, r.destination))))

/-- `groupby(['origin','destination']).size()` for one key. -/
def countRoute (df : DF) (k : String × String) : Nat :=
  (df.rows.filter (fun r => r.origin == k.1 && r.destination == k.2)).length

/-! ### Insight record shapes -/

/-- One record of `popular_routes`. -/
structure RouteEntry where
  origin : String
  destination : String
  frequency : Nat
  is_domestic : Bool
deriving DecidableEq, Repr

/-- One record of `daily_price_trends`. -/
structure DailyTrend where
  date : Date
  avg_price : Option Q
  median_price : Option Q
  flight_count : Nat
deriving DecidableEq, Repr

/-- One record of `weekly_price_trends`. -/
structure WeeklyTrend where
  year : Int
  week : Nat
  avg_price : Option Q
  median_price : Option Q
  flight_count : Nat
deriving DecidableEq, Repr

/-- One record of `monthly_patterns`. -/
structure MonthlyStat where
  month : Nat
  avg_price : Option Q
  median_price : Option Q
  flight_count : Nat
deriving DecidableEq, Repr

/-- One record of `day_of_week_patterns`. -/
structure DayStat where
  day_of_week : Nat
  avg_price : Option Q
  median_price : Option Q
  flight_count : Nat
  day_name : Option String
deriving DecidableEq, Repr

/-- The `price_stats` record.  The source reports the sample standard
deviation `std`; its square (the sample variance) is stored here, since the
square root of a rational is not in general rational. -/
structure PriceStats where
  min : Option Q
  max : Option Q
  mean : Option Q
  median : Option Q
  std_sq : Option Q
  q1 : Option Q
  q3 : Option Q
deriving DecidableEq, Repr

/-- One entry of `top_origins` / `top_destinations`. -/
structure TopPlace where
  code : String
  count : Nat
  city : String
deriving DecidableEq, Repr

/-- The `summary` record.  A field is `none` when its key was not written
or holds a non-finite float (NaN from an empty mean, infinity from a zero
denominator); no claim depends on that distinction. -/
structure Summary where
  total_flights : Nat
  domestic_flights : Option Nat := none
  international_flights : Option Nat := none
  domestic_percentage : Option Q := none
  avg_price : Option Q := none
  median_price : Option Q := none
  avg_domestic_price : Option Q := none
  avg_international_price : Option Q := none
  top_origins : Option (List TopPlace) := none
  top_destinations : Option (List TopPlace) := none
  busiest_day : Option String := none
  weekend_price_premium : Option Q := none
  busiest_month : Option String := none
deriving DecidableEq, Repr

/-- One `market_opportunities` record (the three rule shapes). -/
inductive Opportunity where
  | high_demand_high_price (origin destination : String)
      (frequency : Nat) (median_price : Q)
  | weekend_premium (origin destination : String)
      (weekday_price weekend_price price_difference : Q)
  | seasonal_variation (origin destination : String)
      (high_price_month low_price_month : String) (ratioQ : Q)
deriving DecidableEq, Repr

/-- A value of the insights mapping. -/
inductive InsightVal where
  | routeList (v : List RouteEntry)
  | daily (v : List DailyTrend)
  | weekly (v : List WeeklyTrend)
  | monthlyStats (v : List MonthlyStat)
  | dayStats (v : List DayStat)
  | peaks (v : List String)
  | stats (v : PriceStats)
  | cats (v : List (String × Nat))
  | opps (v : List Opportunity)
  | summary (v : Summary)
deriving DecidableEq, Repr

/-- The type every analysis pass has in this embedding: the (possibly
mutated) shared table together with the key/value pairs the pass writes
into `self.insights`, or the Python exception it raises. -/
abbrev PassResult := Except String (DF × List (String × InsightVal))

/-! ### `analyze_popular_routes` (lines 88-111) -/

/-- Route frequencies sorted descending, truncated to `top_n`, annotated
with `is_domestic`. -/
def popularRoutesList (df : DF) (top_n : Nat) : List RouteEntry :=
  let counts := (routePairs df).map (fun k => (k, countRoute df k))
  let sorted := sortBy (fun a b => decide (b.2 ≤ a.2)) counts
  (sorted.take top_n).map (fun kc =>
    { origin := kc.1.1, destination := kc.1.2, frequency := kc.2,
      is_domestic := isDomesticCode kc.1.1 && isDomesticCode kc.1.2 })

/-- `DataProcessor.analyze_popular_routes` (the `processed_data is None`
guard is the caller's concern; the `groupby` raises if the key columns are
missing). -/
def analyze_popular_routes (df : DF) (top_n : Nat := 10) : PassResult :=
  if df.cols.origin && df.cols.destination then
    .ok (df, [("popular_routes", .routeList (popularRoutesList df top_n))])
  else .error "KeyError: groupby on origin, destination"

/-! ### `analyze_price_trends` (lines 113-143) -/

/-- Distinct parsed dates in ascending order. -/
def dateKeys (df : DF) : List Date :=
  uniqFirst (sortBy dateLe (df.rows.filterMap (·.flight_date)))

/-- Daily mean/median/count of price, grouped by `flight_date` (NaT rows
are dropped by `groupby`; `count` counts non-null prices). -/
def dailyTrendsList (df : DF) : List DailyTrend :=
  (dateKeys df).map (fun dt =>
    let ps := (df.rows.filter (fun r => r.flight_date == some dt)).filterMap (·.price)
    { date := dt, avg_price := meanQ ps, median_price := medianQ ps,
      flight_count := ps.length })

/-- Lines 128-129: `df['week'] = ...isocalendar().week` and
`df['year'] = ...isocalendar().year`, assigned into the *shared* processed
table (no copy is taken). -/
def addWeekYear (df : DF) : DF :=
  { df with
    cols := { df.cols with week := true, year := true }
    rows := df.rows.map (fun r =>
      match r.flight_date with
      | some d => { r with year := some (isoYearWeek d).1, week := some (isoYearWeek d).2 }
      | none => { r with year := none, week := none }) }

/-- Lexicographic order on ISO (year, week) keys. -/
def ywLe (a b : Int × Nat) : Bool :=
  decide (a.1 < b.1) || (a.1 == b.1 && decide (a.2 ≤ b.2))

/-- Weekly mean/median/count of price grouped by ISO (year, week); rows
with NaN keys (NaT dates) are dropped. -/
def weeklyTrendsList (df : DF) : List WeeklyTrend :=
  let keyOf : Row → Option (Int × Nat) := fun r =>
    match r.year, r.week with
    | some y, some w => some (y, w)
    | _, _ => none
  let keys := uniqFirst (sortBy ywLe (df.rows.filterMap keyOf))
  keys.map (fun yw =>
    let ps := (df.rows.filter (fun r => keyOf r == some yw)).filterMap (·.price)
    { year := yw.1, week := yw.2, avg_price := meanQ ps, median_price := medianQ ps,
      flight_count := ps.length })

/-- `DataProcessor.analyze_price_trends`.  When it runs, it adds the
`week` and `year` columns to the shared table. -/
def analyze_price_trends (df : DF) : PassResult :=
  if !df.cols.price then .ok (df, [])
  else if df.cols.flight_date && df.dateParsed then
    let df2 := addWeekYear df
    .ok (df2, [("daily_price_trends", .daily (dailyTrendsList df)),
               ("weekly_price_trends", .weekly (weeklyTrendsList df2))])
  else .ok (df, [])

/-! ### `analyze_seasonal_patterns` (lines 145-204) -/

/-- Line 156: `df['month'] = df['flight_date'].dt.month`, assigned into the
shared table. -/
def addMonth (df : DF) : DF :=
  { df with
    cols := { df.cols with month := true }
    rows := df.rows.map (fun r =>
      match r.flight_date with
      | some d => { r with month := some d.month }
      | none => { r with month := none }) }

/-- Distinct non-null values of a numeric column in ascending order. -/
def natKeysAsc (xs : List Nat) : List Nat :=
  uniqFirst (sortBy (fun a b => decide (a ≤ b)) xs)

/-- `df.groupby('month').agg({'price': ['mean','median','count']})`
(`count` counts non-null prices). -/
def monthlyStatsList (df : DF) : List MonthlyStat :=
  (natKeysAsc (df.rows.filterMap (·.month))).map (fun m =>
    let ps := (df.rows.filter (fun r => r.month == some m)).filterMap (·.price)
    { month := m, avg_price := meanQ ps, median_price := medianQ ps,
      flight_count := ps.length })

/-- The analogous grouping by `day_of_week`, with the day-name map. -/
def dayStatsList (df : DF) : List DayStat :=
  (natKeysAsc (df.rows.filterMap (·.day_of_week))).map (fun d =>
    let ps := (df.rows.filter (fun r => r.day_of_week == some d)).filterMap (·.price)
    { day_of_week := d, avg_price := meanQ ps, median_price := medianQ ps,
      flight_count := ps.length, day_name := dayNameMap d })

/-- `DataProcessor.analyze_seasonal_patterns`.  When the table has no
`month` column it is derived into the shared table from parsed dates, or
the pass no-ops.  The `agg` dictionary always names the `price` column, so
the pass raises `KeyError` when that column is absent; `datetime(2000, m, 1)`
raises `ValueError` on a month outside 1..12.  (In the source a raise would
leave any earlier key writes in place; this embedding reports the error with
no writes, a difference no claim depends on.) -/
def analyze_seasonal_patterns (df : DF) : PassResult :=
  let df1opt : Option DF :=
    if df.cols.month then some df
    else if df.cols.flight_date && df.dateParsed then some (addMonth df)
    else none
  match df1opt with
  | none => .ok (df, [])
  | some df1 =>
    if !df1.cols.price then .error "KeyError: agg column price missing"
    else
      let monthly := monthlyStatsList df1
      let dayWrites :=
        if df1.cols.day_of_week then
          [("day_of_week_patterns", InsightVal.dayStats (dayStatsList df1))]
        else []
      let peakMonths :=
        ((sortBy (fun a b : MonthlyStat => decide (b.flight_count ≤ a.flight_count))
          monthly).take 2).map (·.month)
      match peakMonths.mapM monthName with
      | none => .error "ValueError: month must be in 1..12"
      | some names =>
        .ok (df1, dayWrites ++
          [("monthly_patterns", .monthlyStats monthly),
           ("peak_travel_periods", .peaks names)])

/-! ### `analyze_price_distribution` (lines 206-241) -/

/-- `pd.cut(price, bins=[0, 200, 500, 1000, inf], labels=[...])` with the
default `right=True`: intervals (0, 200], (200, 500], (500, 1000],
(1000, ∞); values ≤ 0 fall outside every bin and get NaN. -/
def categorize (p : Q) : Option String :=
  if 0 < p ∧ p ≤ 200 then some "Budget"
  else if 200 < p ∧ p ≤ 500 then some "Economy"
  else if 500 < p ∧ p ≤ 1000 then some "Premium"
  else if 1000 < p then some "Luxury"
  else none

/-- Line 228: `df['price_category'] = pd.cut(...)`, assigned into the
shared table. -/
def addPriceCategory (df : DF) : DF :=
  { df with
    cols := { df.cols with price_category := true }
    rows := df.rows.map (fun r => { r with price_category := r.price.bind categorize }) }

/-- Rows falling in the bucket labelled `l`. -/
def catCount (df : DF) (l : String) : Nat :=
  (df.rows.filter (fun r => r.price.bind categorize == some l)).length

/-- `value_counts` of the categorical column: every label appears (with
count 0 when empty), most frequent first. -/
def priceCategoriesList (df : DF) : List (String × Nat) :=
  sortBy (fun a b => decide (b.2 ≤ a.2))
    (["Budget", "Economy", "Premium", "Luxury"].map (fun l => (l, catCount df l)))

/-- Sample variance (`ddof=1`): the square of the `std` the source reports;
NaN for fewer than two values. -/
def sampleVar (xs : List Q) : Option Q :=
  match meanQ xs with
  | none => none
  | some m =>
    if xs.length ≤ 1 then none
    else some (sumQ (xs.map (fun x => (x - m) * (x - m))) / (natQ xs.length - 1))

/-- The `price_stats` record (lines 215-223). -/
def priceStatsOf (df : DF) : PriceStats :=
  let ps := df.rows.filterMap (·.price)
  { min := ps.min?, max := ps.max?, mean := meanQ ps, median := medianQ ps,
    std_sq := sampleVar ps, q1 := quantileQ ps (1/4), q3 := quantileQ ps (3/4) }

/-- `DataProcessor.analyze_price_distribution`.  When it runs, it adds the
`price_category` column to the shared table. -/
def analyze_price_distribution (df : DF) : PassResult :=
  if !df.cols.price then .ok (df, [])
  else
    let df2 := addPriceCategory df
    .ok (df2, [("price_stats", .stats (priceStatsOf df)),
               ("price_categories", .cats (priceCategoriesList df))])

/-! ### `analyze_market_opportunities` (lines 243-335) -/

/-- Rule 1 (lines 252-272): routes with frequency strictly above the median
frequency, joined with per-route median prices, filtered to median price
strictly above the median of the joined subset, first five emitted.
Comparisons with a NaN median are False, as in pandas. -/
def rule1Opps (df : DF) : List Opportunity :=
  if df.cols.origin && df.cols.destination then
    let freqs := (routePairs df).map (fun k => (k, countRoute df k))
    let medFreq := medianQ (freqs.map (fun kf => natQ kf.2))
    let highDemand := freqs.filter (fun kf =>
      match medFreq with
      | some m => decide (m < natQ kf.2)
      | none => false)
    if df.cols.price then
      let routeAnalysis : List ((String × String) × Nat × Option Q) :=
        highDemand.map (fun kf => (kf.1, kf.2, routeMedian df kf.1.1 kf.1.2))
      let medPrice := medianQ (routeAnalysis.filterMap (fun x => x.2.2))
      let highOpp := routeAnalysis.filter (fun x =>
        match x.2.2, medPrice with
        | some p, some m => decide (m < p)
        | _, _ => false)
      (highOpp.take 5).filterMap (fun x => x.2.2.map (fun p =>
        Opportunity.high_demand_high_price x.1.1 x.1.2 x.2.1 p))
    else []
  else []

/-- The float comparison `weekend_price / weekday_price > 1.3` including the
zero-denominator cases: `x/0` is `+inf` for `x > 0` (passes) and NaN or
`-inf` otherwise (fails). -/
def ratioGT13 (we wd : Q) : Bool :=
  if wd == 0 then decide (0 < we) else decide (13/10 < we / wd)

/-- Rule 2 (lines 274-304): per-route weekend/weekday median prices via the
pivot; both pivot columns must exist; keep ratio > 1.3; sort by price
difference descending; first five. -/
def rule2Opps (df : DF) : List Opportunity :=
  if df.cols.is_weekend && df.cols.price then
    if df.rows.any (fun r => !r.is_weekend) && df.rows.any (fun r => r.is_weekend) then
      let cands : List ((String × String) × Q × Q) :=
        (routePairs df).filterMap (fun k =>
          let wdMed := medianQ ((df.rows.filter (fun r =>
            r.origin == k.1 && r.destination == k.2 && !r.is_weekend)).filterMap (·.price))
          let weMed := medianQ ((df.rows.filter (fun r =>
            r.origin == k.1 && r.destination == k.2 && r.is_weekend)).filterMap (·.price))
          match wdMed, weMed with
          | some wd, some we => if ratioGT13 we wd then some (k, wd, we) else none
          | _, _ => none)
      let sorted := sortBy (fun a b : (String × String) × Q × Q =>
        decide (b.2.2 - b.2.1 ≤ a.2.2 - a.2.1)) cands
      (sorted.take 5).map (fun x =>
        Opportunity.weekend_premium x.1.1 x.1.2 x.2.1 x.2.2 (x.2.2 - x.2.1))
    else []
  else []

/-- Lexicographic order on (origin, destination, month) keys. -/
def odmLe (a b : String × String × Nat) : Bool :=
  strLtB a.1 b.1 || (a.1 == b.1 &&
    (strLtB a.2.1 b.2.1 || (a.2.1 == b.2.1 && decide (a.2.2 ≤ b.2.2))))

/-- `df.groupby(['origin','destination','month'])['price'].median()
.reset_index()`: ascending keys with positional labels 0.., median price
per group (NaN when the group has no non-null price). -/
def monthlyRoutePrices (df : DF) : List ((String × String × Nat) × Option Q) :=
  let keys := uniqFirst (sortBy odmLe (df.rows.filterMap (fun r =>
    r.month.map (fun m => (r.origin, r.destination, m)))))
  keys.map (fun k =>
    (k, medianQ ((df.rows.filter (fun r =>
      r.origin == k.1 && r.destination == k.2.1 && r.month == some k.2.2)).filterMap
        (·.price))))

/-- Rule 3 (lines 306-330), faithfully including the label/position mix-up:
`route_data['price'].idxmax()` yields a label of the *unfiltered*
`monthly_prices` frame, which line 318 then feeds to positional `.iloc` on
the *filtered* `route_data` — out of range it raises `IndexError`, in range
it silently reads the wrong row for every origin after the first. -/
def rule3Opps (df : DF) : Except String (List Opportunity) :=
  if df.cols.month && df.cols.price then
    let monthly := monthlyRoutePrices df
    let origins := uniqFirst (monthly.map (fun e => e.1.1))
    origins.foldlM (fun acc o =>
      let rd := monthly.enum.filter (fun ie => ie.2.1.1 == o)
      if 1 < rd.length then
        let ps := rd.filterMap (fun ie => ie.2.2)
        match ps.min?, ps.max? with
        | some mn, some mx =>
          let ratioV : Q := if 0 < mn then mx / mn else 1
          if 3/2 < ratioV then
            match (rd.find? (fun ie => ie.2.2 == some mx)).map (·.1),
                  (rd.find? (fun ie => ie.2.2 == some mn)).map (·.1) with
            | some lmax, some lmin =>
              if h1 : lmax < rd.length then
                if h2 : lmin < rd.length then
                  let emax := rd.get ⟨lmax, h1⟩
                  let emin := rd.get ⟨lmin, h2⟩
                  match monthName emax.2.1.2.2, monthName emin.2.1.2.2 with
                  | some hi, some lo =>
                    .ok (acc ++ [.seasonal_variation o emax.2.1.2.1 hi lo ratioV])
                  | _, _ => .error "ValueError: month must be in 1..12"
                else .error "IndexError: single positional indexer is out-of-bounds"
              else .error "IndexError: single positional indexer is out-of-bounds"
            | _, _ => .ok acc
          else .ok acc
        | _, _ => .ok acc
      else .ok acc) []
  else .ok []

/-- `DataProcessor.analyze_market_opportunities`: the three rule scans in
their fixed order, appended into one sequence; the table is not written. -/
def analyze_market_opportunities (df : DF) : PassResult := do
  let o3 ← rule3Opps df
  .ok (df, [("market_opportunities", .opps (rule1Opps df ++ rule2Opps df ++ o3))])

/-! ### `generate_summary_insights` (lines 337-414) -/

/-- Top-5 `value_counts` entries of an airport-code column with the
city-name enrichment (`airport_to_city.get(code, code)`). -/
def topPlaces (xs : List String) : List TopPlace :=
  ((valueCounts xs).take 5).map (fun kc =>
    { code := kc.1, count := kc.2, city := (airportToCity kc.1).getD kc.1 })

/-- Lines 347-390 of `generate_summary_insights`: flight counts,
domestic/international split, price averages and the top-5 origin and
destination lists with city enrichment. -/
def summaryBase (df : DF) : Summary :=
  let total := df.rows.length
  let s0 : Summary := { total_flights := total }
  let s1 :=
    if df.cols.is_domestic then
      let dc := (df.rows.filter (·.is_domestic)).length
      { s0 with
        domestic_flights := some dc
        international_flights := some (total - dc)
        domestic_percentage :=
          if total == 0 then none
          else some (roundQ1 (natQ dc / natQ total * 100)) }
    else s0
  let s2 :=
    if df.cols.price then
      let ps := df.rows.filterMap (·.price)
      let base := { s1 with avg_price := (meanQ ps).map roundQ2,
                            median_price := (medianQ ps).map roundQ2 }
      if df.cols.is_domestic then
        let domRows := df.rows.filter (·.is_domestic)
        let intlRows := df.rows.filter (fun r => !r.is_domestic)
        let b1 :=
          if 0 < domRows.length then
            { base with avg_domestic_price := (meanQ (domRows.filterMap (·.price))).map roundQ2 }
          else base
        if 0 < intlRows.length then
          { b1 with avg_international_price := (meanQ (intlRows.filterMap (·.price))).map roundQ2 }
        else b1
      else base
    else s1
  let s3 :=
    if df.cols.origin then
      { s2 with top_origins := some (topPlaces (df.rows.map (·.origin))) }
    else s2
  if df.cols.destination then
    { s3 with top_destinations := some (topPlaces (df.rows.map (·.destination))) }
  else s3

/-- Lines 392-405 of `generate_summary_insights`: busiest day (a
`ValueError` on an all-null day column) and the weekend price premium when
both subsets are non-empty; a zero weekday mean yields a non-finite float,
modelled as no finite premium. -/
def summaryDayStep (df : DF) (s4 : Summary) : Except String Summary :=
  if df.cols.day_of_week then
    match (valueCounts (df.rows.filterMap (·.day_of_week))).head? with
    | none => .error "ValueError: attempt to get argmax of an empty sequence"
    | some kc =>
      let base := { s4 with busiest_day := dayNameMap kc.1 }
      if df.cols.is_weekend && df.cols.price then
        let weRows := df.rows.filter (·.is_weekend)
        let wdRows := df.rows.filter (fun r => !r.is_weekend)
        if 0 < weRows.length ∧ 0 < wdRows.length then
          match meanQ (weRows.filterMap (·.price)), meanQ (wdRows.filterMap (·.price)) with
          | some mw, some md =>
            .ok (if md == 0 then base
              else { base with
                weekend_price_premium := some (roundQ1 ((mw / md - 1) * 100)) })
          | _, _ => .ok base
        else .ok base
      else .ok base
  else .ok s4

/-- Lines 407-409 of `generate_summary_insights`: busiest month
(`ValueError` on an all-null month column or an out-of-range month). -/
def summaryMonthStep (df : DF) (s5 : Summary) : Except String Summary :=
  if df.cols.month then
    match (valueCounts (df.rows.filterMap (·.month))).head? with
    | none => .error "ValueError: attempt to get argmax of an empty sequence"
    | some kc =>
      match monthName kc.1 with
      | some nm => .ok { s5 with busiest_month := some nm }
      | none => .error "ValueError: month must be in 1..12"
  else .ok s5

/-- `DataProcessor.generate_summary_insights`, building the `summary`
record field group by field group in source order. -/
def generate_summary_insights (df : DF) : PassResult := do
  let s5 ← summaryDayStep df (summaryBase df)
  let s6 ← summaryMonthStep df s5
  .ok (df, [("summary", .summary s6)])

/-! ### `get_insights` (lines 435-444) -/

/-- The two result shapes of `get_insights`: a single category's value, or
the whole mapping. -/
inductive GetInsightsResult (α : Type) where
  | single (v : α)
  | mapping (m : List (String × α))
deriving DecidableEq, Repr

/-- `DataProcessor.get_insights`: empty insights give `{}`; a truthy
category present as a key gives that entry; anything else returns the whole
mapping.  (`if category and category in self.insights`: the empty string is
falsy.) -/
def get_insights {α : Type} (insights : List (String × α))
    (category : Option String) : GetInsightsResult α :=
  if insights.isEmpty then .mapping []
  else
    match category with
    | some c =>
      if c = "" then .mapping insights
      else
        match insights.lookup c with
        | some v => .single v
        | none => .mapping insights
    | none => .mapping insights

/-! ### `filter_data` (src/app.py lines 219-240) -/

/-- `filter_data(data, route_types, price_range)`: empty frame for null or
empty input; otherwise the route-type filter (selecting on `is_domestic`
when exactly one type is chosen — a `KeyError` if that column is absent)
followed by the inclusive price-range filter when a price column exists.
The input is copied, never modified. -/
def filter_data (data : Option DF) (route_types : List String)
    (price_range : Q × Q) : Except String DF :=
  match data with
  | none => .ok emptyDF
  | some df =>
    if df.rows.isEmpty then .ok emptyDF
    else do
      let f1 ←
        if route_types.contains "Domestic" && route_types.contains "International" then
          Except.ok df
        else if route_types.contains "Domestic" then
          if df.cols.is_domestic then
            Except.ok { df with rows := df.rows.filter (·.is_domestic) }
          else Except.error "KeyError: is_domestic"
        else if route_types.contains "International" then
          if df.cols.is_domestic then
            Except.ok { df with rows := df.rows.filter (fun r => !r.is_domestic) }
          else Except.error "KeyError: is_domestic"
        else Except.ok df
      .ok (if f1.cols.price then
        { f1 with rows := f1.rows.filter (fun r =>
            match r.price with
            | some p => decide (price_range.1 ≤ p) && decide (p ≤ price_range.2)
            | none => false) }
      else f1)

end AirlineDemand

deriving instance DecidableEq for Except

namespace AirlineDemand

/-! ### Supporting lemmas -/

/-- Membership in the first-seen deduplication. -/
theorem mem_uniqAux {κ : Type} [DecidableEq κ] (a : κ) :
    ∀ (t acc : List κ), a ∈ uniqAux acc t ↔ a ∈ acc ∨ a ∈ t := by
  intro t
  induction t with
  | nil => intro acc; simp [uniqAux]
  | cons x xs ih =>
    intro acc
    by_cases hx : x ∈ acc
    · have hc : acc.contains x = true := List.elem_iff.mpr hx
      simp only [uniqAux, hc, if_pos, ih]
      constructor
      · rintro (h | h)
        · exact Or.inl h
        · exact Or.inr (List.mem_cons_of_mem _ h)
      · rintro (h | h)
        · exact Or.inl h
        · rcases List.mem_cons.mp h with rfl | h
          · exact Or.inl hx
          · exact Or.inr h
    · have hc : acc.contains x = false := by
        rcases hb : acc.contains x with _ | _
        · rfl
        · exact absurd (List.elem_iff.mp hb) hx
      simp only [uniqAux, hc, Bool.false_eq_true, if_neg, not_false_iff, ih]
      constructor
      · rintro (h | h)
        · rcases List.mem_cons.mp h with rfl | h
          · exact Or.inr (List.mem_cons_self _ _)
          · exact Or.inl h
        · exact Or.inr (List.mem_cons_of_mem _ h)
      · rintro (h | h)
        · exact Or.inl (List.mem_cons_of_mem _ h)
        · rcases List.mem_cons.mp h with rfl | h
          · exact Or.inl (List.mem_cons_self _ _)
          · exact Or.inr h

/-- Membership in `uniqFirst`. -/
theorem mem_uniqFirst {κ : Type} [DecidableEq κ] {a : κ} {l : List κ} :
    a ∈ uniqFirst l ↔ a ∈ l := by
  simp [uniqFirst, mem_uniqAux]

/-- The first-seen deduplication has no duplicates. -/
theorem nodup_uniqAux {κ : Type} [DecidableEq κ] :
    ∀ (t acc : List κ), acc.Nodup → (uniqAux acc t).Nodup := by
  intro t
  induction t with
  | nil =>
    intro acc h
    simpa [uniqAux] using List.nodup_reverse.mpr h
  | cons x xs ih =>
    intro acc hacc
    by_cases hx : x ∈ acc
    · simpa [uniqAux, hx] using ih acc hacc
    · simpa [uniqAux, hx] using ih (x :: acc) (List.nodup_cons.mpr ⟨hx, hacc⟩)

/-- `uniqFirst` has no duplicates. -/
theorem nodup_uniqFirst {κ : Type} [DecidableEq κ] (l : List κ) :
    (uniqFirst l).Nodup :=
  nodup_uniqAux l [] List.nodup_nil

/-- `sortBy` is a permutation of its input. -/
theorem sortBy_perm {α : Type} (rel : α → α → Bool) (l : List α) :
    (sortBy rel l).Perm l :=
  List.perm_insertionSort _ l

/-- Membership is preserved by `sortBy`. -/
theorem mem_sortBy {α : Type} {rel : α → α → Bool} {a : α} {l : List α} :
    a ∈ sortBy rel l ↔ a ∈ l :=
  (sortBy_perm rel l).mem_iff

/-- `medianQ` is `none` exactly on the empty list. -/
theorem medianQ_eq_none_iff {xs : List Q} : medianQ xs = none ↔ xs = [] := by
  have hlen : (sortQ xs).length = xs.length :=
    (List.perm_insertionSort _ xs).length_eq
  unfold medianQ quantileQ
  constructor
  · intro h
    rcases hs : sortQ xs with _ | ⟨y, ys⟩
    · have : xs.length = 0 := by
        rw [← hlen, hs]; rfl
      exact List.length_eq_zero.mp this
    · rw [hs] at h
      simp at h
  · intro h
    subst h
    rfl

/-- A non-empty price list has a median. -/
theorem medianQ_isSome_of_ne_nil {xs : List Q} (h : xs ≠ []) :
    (medianQ xs).isSome = true := by
  rcases hm : medianQ xs with _ | v
  · exact absurd (medianQ_eq_none_iff.mp hm) h
  · rfl

/-! ### Concrete tables used by witnesses and counterexamples -/

/-- The four-row scenario table of the repository spec (two SYD-MEL domestic
rows, two SYD-LAX international rows, one missing price). -/
def dfScenario : DF :=
  { cols := { origin := true, destination := true, price := true, is_domestic := true }
    rows :=
      [{ origin := "SYD", destination := "MEL", price := some 150, is_domestic := true },
       { origin := "SYD", destination := "MEL", price := some 160, is_domestic := true },
       { origin := "SYD", destination := "LAX", price := some 1200, is_domestic := false },
       { origin := "SYD", destination := "LAX", price := none, is_domestic := false }] }

/-! ### Claim C1 -/

/-- Price imputation does not change the column set. -/
theorem imputePrices_cols {df x : DF} (h : imputePrices df = .ok x) : x.cols = df.cols := by
  unfold imputePrices at h
  cases hc : (df.cols.price && df.rows.any fun r => r.price.isNone) <;> rw [hc] at h
  · simp only [Bool.false_eq_true, if_false] at h
    cases h
    rfl
  · simp only [if_true] at h
    cases hf : (df.cols.origin && df.cols.destination) <;> rw [hf] at h
    · simp only [Bool.false_eq_true, if_false] at h
      cases h
    · simp only [if_true] at h
      cases h
      rfl

/-- Date conversion does not change the column set. -/
theorem convertDates_cols (df : DF) : (convertDates df).cols = df.cols := by
  unfold convertDates
  split <;> rfl

/-- A table whose column set is missing the five-column identity key while
having more than three columns: the source's `drop_duplicates` raises
`KeyError` on it, contradicting C1's never-raises guarantee. -/
def dfC1bad : DF :=
  { cols := { origin := true, destination := true, price := true, airline := true }
    rows := [{ origin := "A", destination := "B", price := some 100, airline := some "Q" }] }

/-- Counterexample to C1 as stated: on a non-empty four-column table (origin,
destination, price, airline) `clean_data` raises `KeyError`, because
`drop_duplicates` runs whenever more than three columns are present and its
five subset columns are not all there. -/
theorem C1_counterexample :
    clean_data (some dfC1bad) = .error "KeyError: drop_duplicates subset columns missing" := by
  decide

/-- C1 (amended): `clean_data` logs a warning and leaves the processor
unchanged on null or empty input, and never raises **provided** the column
set supports the operations it unconditionally attempts: origin/destination
must be present when the price column has missing values (for the imputation
`groupby`), and the five identity columns must be present when the table has
more than three columns (for `drop_duplicates`).  Under those provisos the
only failure mode is an empty cleaned table. -/
theorem C1_clean_never_raises (df : DF)
    (himp : df.cols.price = true → df.rows.any (fun r => r.price.isNone) = true →
      df.cols.origin = true ∧ df.cols.destination = true)
    (hded : 3 < numCols df.cols →
      df.cols.flight_date = true ∧ df.cols.flight_time = true ∧ df.cols.origin = true ∧
        df.cols.destination = true ∧ df.cols.airline = true) :
    clean_data none = .ok none ∧
    (df.rows = [] → clean_data (some df) = .ok none) ∧
    (clean_data (some df)).isOk = true := by
  refine ⟨rfl, ?_, ?_⟩
  · intro h
    simp [clean_data, h]
  · rcases hr : df.rows with _ | ⟨r0, rs⟩
    · simp [clean_data, hr, Except.isOk, Except.toBool]
    · have hne : df.rows.isEmpty = false := by rw [hr]; rfl
      simp only [clean_data, hne, Bool.false_eq_true, if_false]
      obtain ⟨x, hx⟩ : ∃ x, imputePrices df = .ok x := by
        unfold imputePrices
        cases hc : (df.cols.price && df.rows.any fun r => r.price.isNone)
        · exact ⟨df, by simp [hc]⟩
        · obtain ⟨hp, hn⟩ : df.cols.price = true ∧
              (df.rows.any fun r => r.price.isNone) = true := by simpa using hc
          obtain ⟨ho, hd⟩ := himp hp hn
          exact ⟨{ df with rows := fillGlobalMedian (fillRouteMedians df) },
            by simp [hc, ho, hd]⟩
      obtain ⟨y, hy⟩ : ∃ y, dedupStep (convertDates x) = .ok y := by
        have hcx : (convertDates x).cols = df.cols := by
          rw [convertDates_cols, imputePrices_cols hx]
        by_cases h3 : 3 < numCols (convertDates x).cols
        · obtain ⟨h1, h2, h4, h5, h6⟩ := hded (by rwa [hcx] at h3)
          refine ⟨{ convertDates x with rows := dedupRowsAux [] (convertDates x).rows }, ?_⟩
          unfold dedupStep
          rw [if_pos h3]
          have g1 : (convertDates x).cols.flight_date = true := by rw [hcx]; exact h1
          have g2 : (convertDates x).cols.flight_time = true := by rw [hcx]; exact h2
          have g4 : (convertDates x).cols.origin = true := by rw [hcx]; exact h4
          have g5 : (convertDates x).cols.destination = true := by rw [hcx]; exact h5
          have g6 : (convertDates x).cols.airline = true := by rw [hcx]; exact h6
          rw [g1, g2, g4, g5, g6]
          simp
        · exact ⟨convertDates x, by simp [dedupStep, h3]⟩
      have hct : cleanTable df = .ok (deriveCalendar (removeOutliers y)) := by
        unfold cleanTable
        rw [hx]
        simp only [bind, Except.bind]
        rw [hy]
      rw [hct]
      rfl

/-- The three-column witness table for C1. -/
def dfC1w : DF :=
  { cols := { origin := true, destination := true, price := true }
    rows := [{ origin := "A", destination := "B", price := some 100 },
             { origin := "A", destination := "B", price := none }] }

/-- Witness for C1 (amended) at a three-column table with a missing price. -/
theorem C1_witness :
    (dfC1w.cols.price = true → dfC1w.rows.any (fun r => r.price.isNone) = true →
      dfC1w.cols.origin = true ∧ dfC1w.cols.destination = true) ∧
    (3 < numCols dfC1w.cols →
      dfC1w.cols.flight_date = true ∧ dfC1w.cols.flight_time = true ∧ dfC1w.cols.origin = true ∧
        dfC1w.cols.destination = true ∧ dfC1w.cols.airline = true) ∧
    (clean_data none = .ok none ∧
      (dfC1w.rows = [] → clean_data (some dfC1w) = .ok none) ∧
      (clean_data (some dfC1w)).isOk = true) :=
  ⟨by decide, by decide, C1_clean_never_raises dfC1w (by decide) (by decide)⟩

/-! ### Claim C2 -/

/-- Outlier removal does not change the column set. -/
theorem removeOutliers_cols (df : DF) : (removeOutliers df).cols = df.cols := by
  unfold removeOutliers
  cases hp : df.cols.price
  · simp [hp]
  · simp only [hp, if_true]
    cases h1 : quantileQ (df.rows.filterMap fun x => x.price) (1/4) <;>
      cases h2 : quantileQ (df.rows.filterMap fun x => x.price) (3/4) <;>
      simp [h1, h2]

/-- A table on which cleaning is not idempotent: prices 0,0,0,0,1,10. -/
def dfC2a : DF :=
  { cols := { origin := true, destination := true, price := true }
    rows := [{ origin := "A", destination := "B", price := some 0 },
             { origin := "A", destination := "B", price := some 0 },
             { origin := "A", destination := "B", price := some 0 },
             { origin := "A", destination := "B", price := some 0 },
             { origin := "A", destination := "B", price := some 1 },
             { origin := "A", destination := "B", price := some 10 }] }

/-- The first cleaning of `dfC2a`: the IQR fence is [-9/8, 15/8], dropping
only the 10. -/
def dfC2b : DF :=
  { cols := { origin := true, destination := true, price := true }
    rows := [{ origin := "A", destination := "B", price := some 0 },
             { origin := "A", destination := "B", price := some 0 },
             { origin := "A", destination := "B", price := some 0 },
             { origin := "A", destination := "B", price := some 0 },
             { origin := "A", destination := "B", price := some 1 }] }

/-- The second cleaning of `dfC2b`: over 0,0,0,0,1 both quartiles are 0, the
fence collapses to [0,0] and the 1 is dropped as well. -/
def dfC2c : DF :=
  { cols := { origin := true, destination := true, price := true }
    rows := [{ origin := "A", destination := "B", price := some 0 },
             { origin := "A", destination := "B", price := some 0 },
             { origin := "A", destination := "B", price := some 0 },
             { origin := "A", destination := "B", price := some 0 }] }

/-- Counterexample to C2 as stated: cleaning `dfC2a` yields `dfC2b`, but
cleaning the already-cleaned `dfC2b` drops a further row (the price 1),
because the IQR fence is recomputed over the cleaned price column. -/
theorem C2_counterexample :
    clean_data (some dfC2a) = .ok (some dfC2b) ∧
    clean_data (some dfC2b) = .ok (some dfC2c) ∧
    dfC2c ≠ dfC2b := by
  refine ⟨by decide, by decide, by decide⟩

/-- C2 (amended): a second run of the Cleaner on an already-cleaned table
performs no further imputation and no further deduplication, but it does
re-apply the IQR outlier fence recomputed over the cleaned price column,
which can drop further rows — cleaning is therefore not idempotent.  For a
table with exactly the origin, destination and price columns and no missing
prices (the shape of a cleaned three-column table), a second clean equals
re-filtering by the recomputed fence. -/
theorem C2_second_clean_refilters (df : DF)
    (hc : df.cols = { origin := true, destination := true, price := true })
    (hp : ∀ r ∈ df.rows, r.price.isSome = true) :
    cleanTable df = .ok (removeOutliers df) := by
  have hany : (df.rows.any fun r => r.price.isNone) = false := by
    rw [List.any_eq_false]
    intro r hr
    have := hp r hr
    cases hpr : r.price with
    | none => rw [hpr] at this; cases this
    | some v => simp [hpr]
  have h1 : imputePrices df = .ok df := by
    unfold imputePrices
    rw [hany]
    simp
  have h2 : convertDates df = df := by
    unfold convertDates
    rw [hc]
    simp
  have h3 : dedupStep df = .ok df := by
    unfold dedupStep
    rw [hc]
    simp [numCols]
  have h4 : deriveCalendar (removeOutliers df) = removeOutliers df := by
    unfold deriveCalendar
    rw [removeOutliers_cols, hc]
    simp
  unfold cleanTable
  rw [h1]
  simp only [bind, Except.bind]
  rw [h2, h3]
  simp only [bind, Except.bind]
  rw [h4]

/-- Witness for C2 (amended) at the cleaned table `dfC2b`. -/
theorem C2_witness :
    dfC2b.cols = { origin := true, destination := true, price := true } ∧
    (∀ r ∈ dfC2b.rows, r.price.isSome = true) ∧
    cleanTable dfC2b = .ok (removeOutliers dfC2b) :=
  ⟨by decide, by decide, C2_second_clean_refilters dfC2b (by decide) (by decide)⟩

/-! ### Claim C5 -/

/-- A single-origin cleaned table: route A→B with month-1 median 1000 and
month-6 median 400 (the spec scenario). -/
def dfC5single : DF :=
  { cols := { origin := true, destination := true, price := true, month := true }
    rows := [{ origin := "A", destination := "B", month := some 1, price := some 1000 },
             { origin := "A", destination := "B", month := some 6, price := some 400 }] }

/-- The same data with a second origin C→D added (month-1 median 1000,
month-2 median 400, ratio 2.5 as well). -/
def dfC5two : DF :=
  { cols := { origin := true, destination := true, price := true, month := true }
    rows := [{ origin := "A", destination := "B", month := some 1, price := some 1000 },
             { origin := "A", destination := "B", month := some 6, price := some 400 },
             { origin := "C", destination := "D", month := some 1, price := some 1000 },
             { origin := "C", destination := "D", month := some 2, price := some 400 }] }

/-- C5: the seasonal-variation rule behaves as claimed only for the first
origin.  On the single-origin scenario it emits exactly the claimed record
(high January, low June, ratio 2.5).  But `analyze_market_opportunities`
evaluates the cleaned table `dfC5two` — whose second origin C also has ratio
2.5 > 1.5 — to an `IndexError` instead of emitting a record per qualifying
origin: `route_data['price'].idxmax()` returns a label of the unfiltered
monthly frame, which `.iloc` then uses as a position in the filtered
`route_data`. -/
theorem C5_seasonal_iloc_bug :
    analyze_market_opportunities dfC5single = .ok (dfC5single,
      [("market_opportunities",
        .opps [.seasonal_variation "A" "B" "January" "June" (5/2)])]) ∧
    analyze_market_opportunities dfC5two =
      .error "IndexError: single positional indexer is out-of-bounds" := by
  refine ⟨by decide, by decide⟩

/-! ### Claim C6 -/

/-- `pass df` succeeding implies the postcondition `P`; errors are vacuous. -/
def okImplies (e : PassResult) (P : DF × List (String × InsightVal) → Prop) : Prop :=
  match e with
  | .ok r => P r
  | .error _ => True

theorem okImplies_ok (r : DF × List (String × InsightVal))
    (P : DF × List (String × InsightVal) → Prop) :
    okImplies (.ok r) P = P r := rfl

theorem okImplies_error (e : String) (P : DF × List (String × InsightVal) → Prop) :
    okImplies (.error e) P = True := rfl

/-- Masking away the `week`/`year` columns hides exactly what `addWeekYear`
writes. -/
theorem maskDF_addWeekYear (df : DF) {c : Cols} (hw : c.week = false) (hy : c.year = false) :
    maskDF c (addWeekYear df) = maskDF c df := by
  unfold maskDF addWeekYear
  simp only [List.map_map]
  apply List.map_congr_left
  intro r _
  simp only [Function.comp]
  cases hfd : r.flight_date <;> simp [maskRow, hw, hy, hfd]

/-- Masking away the `month` column hides exactly what `addMonth` writes. -/
theorem maskDF_addMonth (df : DF) {c : Cols} (hm : c.month = false) :
    maskDF c (addMonth df) = maskDF c df := by
  unfold maskDF addMonth
  simp only [List.map_map]
  apply List.map_congr_left
  intro r _
  simp only [Function.comp]
  cases hfd : r.flight_date <;> simp [maskRow, hm, hfd]

/-- Masking away `price_category` hides exactly what `addPriceCategory`
writes. -/
theorem maskDF_addPriceCategory (df : DF) {c : Cols} (hp : c.price_category = false) :
    maskDF c (addPriceCategory df) = maskDF c df := by
  unfold maskDF addPriceCategory
  simp only [List.map_map]
  apply List.map_congr_left
  intro r _
  simp only [Function.comp]
  simp [maskRow, hp]

/-- `analyze_popular_routes` leaves the table untouched and writes only its
own key. -/
theorem popular_frameAux (df : DF) :
    okImplies (analyze_popular_routes df 10)
      (fun r => r.1 = df ∧ r.2.map Prod.fst ⊆ ["popular_routes"]) := by
  unfold analyze_popular_routes
  by_cases hoc : (df.cols.origin && df.cols.destination) = true
  · rw [if_pos hoc, okImplies_ok]
    exact ⟨by trivial, by simp⟩
  · rw [if_neg hoc, okImplies_error]
    trivial

/-- `analyze_price_trends` preserves the table except for the `week`/`year`
columns it writes into the shared frame, and writes only its own keys. -/
theorem trends_frameAux (df : DF) :
    okImplies (analyze_price_trends df)
      (fun r =>
        maskDF { df.cols with week := false, year := false } r.1 =
          maskDF { df.cols with week := false, year := false } df ∧
        r.1.rows.length = df.rows.length ∧
        r.2.map Prod.fst ⊆ ["daily_price_trends", "weekly_price_trends"]) := by
  unfold analyze_price_trends
  dsimp only
  by_cases hp : df.cols.price = true
  · simp only [hp, Bool.not_true, Bool.false_eq_true, if_false]
    by_cases hfd : (df.cols.flight_date && df.dateParsed) = true
    · rw [if_pos hfd, okImplies_ok]
      exact ⟨maskDF_addWeekYear df rfl rfl, by simp [addWeekYear], by simp⟩
    · rw [if_neg hfd, okImplies_ok]
      exact ⟨by trivial, by trivial, by simp⟩
  · have hp2 : df.cols.price = false := by
      cases hcp : df.cols.price
      · rfl
      · exact absurd hcp hp
    simp only [hp2, Bool.not_false, if_true]
    rw [okImplies_ok]
    exact ⟨by trivial, by trivial, by simp⟩

/-- `analyze_seasonal_patterns` preserves the table except for the `month`
column it may write, and writes only its own keys. -/
theorem seasonal_frameAux (df : DF) :
    okImplies (analyze_seasonal_patterns df)
      (fun r =>
        maskDF { df.cols with month := false } r.1 =
          maskDF { df.cols with month := false } df ∧
        r.1.rows.length = df.rows.length ∧
        r.2.map Prod.fst ⊆
          ["day_of_week_patterns", "monthly_patterns", "peak_travel_periods"]) := by
  unfold analyze_seasonal_patterns
  dsimp only
  by_cases hm : df.cols.month = true
  · simp only [hm, if_true]
    by_cases hp : df.cols.price = true
    · simp only [hp, Bool.not_true, Bool.false_eq_true, if_false]
      cases hpm : ((((sortBy (fun a b : MonthlyStat => decide (b.flight_count ≤ a.flight_count))
          (monthlyStatsList df)).take 2).map (·.month)).mapM monthName) with
      | none =>
        simp only [hpm, okImplies_error]
      | some names =>
        simp only [hpm, okImplies_ok]
        refine ⟨by trivial, by trivial, ?_⟩
        by_cases hdow : df.cols.day_of_week = true <;> simp [hdow]
    · have hp2 : df.cols.price = false := by
        cases hcp : df.cols.price
        · rfl
        · exact absurd hcp hp
      simp only [hp2, Bool.not_false, if_true]
      rw [okImplies_error]
      trivial
  · have hm2 : df.cols.month = false := by
      cases hcm : df.cols.month
      · rfl
      · exact absurd hcm hm
    simp only [hm2, Bool.false_eq_true, if_false]
    by_cases hfd : (df.cols.flight_date && df.dateParsed) = true
    · simp only [hfd, if_true]
      by_cases hp : (addMonth df).cols.price = true
      · simp only [hp, Bool.not_true, Bool.false_eq_true, if_false]
        cases hpm : ((((sortBy (fun a b : MonthlyStat => decide (b.flight_count ≤ a.flight_count))
            (monthlyStatsList (addMonth df))).take 2).map (·.month)).mapM monthName) with
        | none =>
          simp only [hpm, okImplies_error]
        | some names =>
          simp only [hpm, okImplies_ok]
          refine ⟨maskDF_addMonth df rfl, by simp [addMonth], ?_⟩
          by_cases hdow : (addMonth df).cols.day_of_week = true <;> simp [hdow]
      · have hp2 : (addMonth df).cols.price = false := by
          cases hcp : (addMonth df).cols.price
          · rfl
          · exact absurd hcp hp
        simp only [hp2, Bool.not_false, if_true]
        rw [okImplies_error]
        trivial
    · simp only [hfd, Bool.false_eq_true, if_false]
      rw [okImplies_ok]
      exact ⟨by trivial, by trivial, by simp⟩

/-- `analyze_price_distribution` preserves the table except for the
`price_category` column it writes, and writes only its own keys. -/
theorem distribution_frameAux (df : DF) :
    okImplies (analyze_price_distribution df)
      (fun r =>
        maskDF { df.cols with price_category := false } r.1 =
          maskDF { df.cols with price_category := false } df ∧
        r.1.rows.length = df.rows.length ∧
        r.2.map Prod.fst ⊆ ["price_stats", "price_categories"]) := by
  unfold analyze_price_distribution
  dsimp only
  by_cases hp : df.cols.price = true
  · simp only [hp, Bool.not_true, Bool.false_eq_true, if_false]
    rw [okImplies_ok]
    exact ⟨maskDF_addPriceCategory df rfl, by simp [addPriceCategory], by simp⟩
  · have hp2 : df.cols.price = false := by
      cases hcp : df.cols.price
      · rfl
      · exact absurd hcp hp
    simp only [hp2, Bool.not_false, if_true]
    rw [okImplies_ok]
    exact ⟨by trivial, by trivial, by simp⟩

/-- `analyze_market_opportunities` leaves the table untouched and writes
only its own key. -/
theorem opportunities_frameAux (df : DF) :
    okImplies (analyze_market_opportunities df)
      (fun r => r.1 = df ∧ r.2.map Prod.fst ⊆ ["market_opportunities"]) := by
  unfold analyze_market_opportunities
  cases h3 : rule3Opps df with
  | error e =>
    simp only [h3, bind, Except.bind, okImplies_error]
  | ok o3 =>
    simp only [h3, bind, Except.bind, okImplies_ok]
    exact ⟨by trivial, by simp⟩

/-- `generate_summary_insights` leaves the table untouched and writes only
its own key. -/
theorem summary_frameAux (df : DF) :
    okImplies (generate_summary_insights df)
      (fun r => r.1 = df ∧ r.2.map Prod.fst ⊆ ["summary"]) := by
  unfold generate_summary_insights
  cases h5 : summaryDayStep df (summaryBase df) with
  | error e =>
    simp only [h5, bind, Except.bind, okImplies_error]
  | ok s5 =>
    cases h6 : summaryMonthStep df s5 with
    | error e =>
      simp only [h5, h6, bind, Except.bind, okImplies_error]
    | ok s6 =>
      simp only [h5, h6, bind, Except.bind, okImplies_ok]
      exact ⟨by trivial, by simp⟩

/-- A one-row priced table on which the passes mutate the shared frame. -/
def dfC6 : DF :=
  { cols := { price := true }
    rows := [{ price := some 100 }] }

/-- Counterexample to C6 as stated: `analyze_price_distribution` writes the
`price_category` column into the shared table (line 228 of
`data_processor.py`), so the table is not identical before and after the
pass; likewise `analyze_price_trends` would add `week`/`year` and
`analyze_seasonal_patterns` would add `month`. -/
theorem C6_counterexample :
    (analyze_price_distribution dfC6).map (fun r => r.1.cols.price_category) = .ok true ∧
    dfC6.cols.price_category = false := by
  refine ⟨by decide, by decide⟩

/-- Claim C6 (amended): each of the six passes writes only its own keys of
the insights mapping, and treats the table as read-only except for the
derived columns some passes write back into the shared frame —
`analyze_price_trends` may write `week`/`year`, `analyze_seasonal_patterns`
may write `month`, and `analyze_price_distribution` writes
`price_category`; masking those columns away, the rows and every other
column are identical before and after each pass, and no rows are added or
removed. -/
theorem C6_frame (df : DF) :
    okImplies (analyze_popular_routes df 10)
      (fun r => r.1 = df ∧ r.2.map Prod.fst ⊆ ["popular_routes"]) ∧
    okImplies (analyze_price_trends df)
      (fun r =>
        maskDF { df.cols with week := false, year := false } r.1 =
          maskDF { df.cols with week := false, year := false } df ∧
        r.1.rows.length = df.rows.length ∧
        r.2.map Prod.fst ⊆ ["daily_price_trends", "weekly_price_trends"]) ∧
    okImplies (analyze_seasonal_patterns df)
      (fun r =>
        maskDF { df.cols with month := false } r.1 =
          maskDF { df.cols with month := false } df ∧
        r.1.rows.length = df.rows.length ∧
        r.2.map Prod.fst ⊆
          ["day_of_week_patterns", "monthly_patterns", "peak_travel_periods"]) ∧
    okImplies (analyze_price_distribution df)
      (fun r =>
        maskDF { df.cols with price_category := false } r.1 =
          maskDF { df.cols with price_category := false } df ∧
        r.1.rows.length = df.rows.length ∧
        r.2.map Prod.fst ⊆ ["price_stats", "price_categories"]) ∧
    okImplies (analyze_market_opportunities df)
      (fun r => r.1 = df ∧ r.2.map Prod.fst ⊆ ["market_opportunities"]) ∧
    okImplies (generate_summary_insights df)
      (fun r => r.1 = df ∧ r.2.map Prod.fst ⊆ ["summary"]) :=
  ⟨popular_frameAux df, trends_frameAux df, seasonal_frameAux df,
   distribution_frameAux df, opportunities_frameAux df, summary_frameAux df⟩

/-! ### Claim C7 -/

/-- Totality of the descending-count comparator. -/
theorem descByCount_total :
    ∀ a b : (String × String) × Nat,
      (decide (b.2 ≤ a.2) = true) ∨ (decide (a.2 ≤ b.2) = true) := by
  intro a b
  simpa [decide_eq_true_iff] using (Nat.le_total b.2 a.2)

/-- Transitivity of the descending-count comparator. -/
theorem descByCount_trans :
    ∀ a b c : (String × String) × Nat,
      (decide (b.2 ≤ a.2) = true) → (decide (c.2 ≤ b.2) = true) →
      (decide (c.2 ≤ a.2) = true) := by
  intro a b c hab hbc
  simp only [decide_eq_true_iff] at *
  exact le_trans hbc hab

/-- Sorting by descending count yields a descending-count-sorted list. -/
theorem sortBy_desc_sorted (l : List ((String × String) × Nat)) :
    List.Sorted (fun a b : (String × String) × Nat => decide (b.2 ≤ a.2) = true)
      (sortBy (fun a b => decide (b.2 ≤ a.2)) l) := by
  haveI : IsTotal ((String × String) × Nat)
      (fun a b : (String × String) × Nat => decide (b.2 ≤ a.2) = true) :=
    ⟨descByCount_total⟩
  haveI : IsTrans ((String × String) × Nat)
      (fun a b : (String × String) × Nat => decide (b.2 ≤ a.2) = true) :=
    ⟨descByCount_trans⟩
  exact List.sorted_insertionSort _ l

/-- Claim C7: for every non-empty table with origin and destination
columns, the pass returns the table unchanged with `popular_routes` holding
the per-(origin, destination) row counts as `frequency`, sorted in
descending frequency order and truncated to the top `n`; each entry counts
its own route, routes are listed at most once, every excluded route has
frequency no larger than any included one, and `is_domestic` is true iff
both endpoints are in the configured domestic-airport set. -/
theorem C7_popular_routes (df : DF) (n : Nat)
    (ho : df.cols.origin = true) (hd : df.cols.destination = true)
    (hne : df.rows ≠ []) :
    analyze_popular_routes df n =
      .ok (df, [("popular_routes", .routeList (popularRoutesList df n))]) ∧
    (popularRoutesList df n).length = min n (routePairs df).length ∧
    List.Sorted (fun a b : RouteEntry => b.frequency ≤ a.frequency)
      (popularRoutesList df n) ∧
    (∀ e ∈ popularRoutesList df n,
      e.frequency = countRoute df (e.origin, e.destination) ∧
      (e.origin, e.destination) ∈ routePairs df ∧
      e.is_domestic = (isDomesticCode e.origin && isDomesticCode e.destination)) ∧
    ((popularRoutesList df n).map (fun e => (e.origin, e.destination))).Nodup ∧
    (∀ k ∈ routePairs df,
      k ∉ (popularRoutesList df n).map (fun e => (e.origin, e.destination)) →
      ∀ e ∈ popularRoutesList df n, countRoute df k ≤ e.frequency) := by
  have hflow : (popularRoutesList df n) =
      ((sortBy (fun a b => decide (b.2 ≤ a.2))
        ((routePairs df).map (fun k => (k, countRoute df k)))).take n).map
        (fun kc => { origin := kc.1.1, destination := kc.1.2, frequency := kc.2,
                     is_domestic := isDomesticCode kc.1.1 && isDomesticCode kc.1.2 }) := rfl
  set counts := (routePairs df).map (fun k => (k, countRoute df k)) with hcounts
  set S := sortBy (fun a b : (String × String) × Nat => decide (b.2 ≤ a.2)) counts with hS
  have hSperm : S.Perm counts := sortBy_perm _ _
  have hSsorted : List.Sorted
      (fun a b : (String × String) × Nat => decide (b.2 ≤ a.2) = true) S :=
    sortBy_desc_sorted counts
  refine ⟨?_, ?_, ?_, ?_, ?_, ?_⟩
  · unfold analyze_popular_routes
    rw [ho, hd]
    simp
  · rw [hflow]
    rw [List.length_map, List.length_take, hSperm.length_eq, List.length_map]
  · rw [hflow]
    have h1 : List.Sorted (fun a b : (String × String) × Nat => decide (b.2 ≤ a.2) = true)
        (S.take n) := List.Pairwise.sublist (List.take_sublist n S) hSsorted
    refine List.Pairwise.map _ ?_ h1
    intro a b hab
    simpa [decide_eq_true_iff] using hab
  · rw [hflow]
    intro e he
    rcases List.mem_map.mp he with ⟨kc, hkcmem, rfl⟩
    have hkcS : kc ∈ S := List.mem_of_mem_take hkcmem
    have hkcC : kc ∈ counts := hSperm.mem_iff.mp hkcS
    rcases List.mem_map.mp hkcC with ⟨k, hk, rfl⟩
    exact ⟨rfl, hk, rfl⟩
  · rw [hflow]
    rw [List.map_map]
    have hfun : ((fun e : RouteEntry => (e.origin, e.destination)) ∘
        (fun kc : (String × String) × Nat =>
          ({ origin := kc.1.1, destination := kc.1.2, frequency := kc.2,
             is_domestic := isDomesticCode kc.1.1 && isDomesticCode kc.1.2 } : RouteEntry))) =
        (fun kc : (String × String) × Nat => kc.1) := rfl
    rw [hfun]
    have hcntkeys : counts.map (fun kc => kc.1) = routePairs df := by
      rw [hcounts, List.map_map]
      exact List.map_id _
    have hnodupS : (S.map (fun kc => kc.1)).Nodup := by
      have hpm : (S.map (fun kc => kc.1)).Perm (counts.map (fun kc => kc.1)) :=
        hSperm.map _
      rw [hcntkeys] at hpm
      exact hpm.nodup_iff.mpr (nodup_uniqFirst _)
    exact List.Nodup.sublist (List.Sublist.map _ (List.take_sublist n S)) hnodupS
  · intro k hk hnotin e he
    rw [hflow] at he hnotin
    rcases List.mem_map.mp he with ⟨kc, hkcmem, rfl⟩
    have hkcnt : (k, countRoute df k) ∈ counts := List.mem_map.mpr ⟨k, hk, rfl⟩
    have hkS : (k, countRoute df k) ∈ S := hSperm.mem_iff.mpr hkcnt
    have hkdrop : (k, countRoute df k) ∈ S.drop n := by
      have hkS2 : (k, countRoute df k) ∈ S.take n ++ S.drop n := by
        rw [List.take_append_drop]
        exact hkS
      rcases List.mem_append.mp hkS2 with h | h
      · exfalso
        apply hnotin
        rw [List.map_map]
        exact List.mem_map.mpr ⟨(k, countRoute df k), h, rfl⟩
      · exact h
    have hpw : ∀ a ∈ S.take n, ∀ b ∈ S.drop n,
        (fun a b : (String × String) × Nat => decide (b.2 ≤ a.2) = true) a b := by
      have h2 : List.Pairwise
          (fun a b : (String × String) × Nat => decide (b.2 ≤ a.2) = true)
          (S.take n ++ S.drop n) := by
        rw [List.take_append_drop]
        exact hSsorted
      exact fun a ha b hb => (List.pairwise_append.mp h2).2.2 a ha b hb
    have := hpw kc hkcmem (k, countRoute df k) hkdrop
    simpa [decide_eq_true_iff] using this

/-- Witness for C7 at the scenario table with the default top-10. -/
theorem C7_witness :
    (dfScenario.cols.origin = true ∧ dfScenario.cols.destination = true ∧
      dfScenario.rows ≠ []) ∧
    analyze_popular_routes dfScenario 10 =
      .ok (dfScenario, [("popular_routes", .routeList (popularRoutesList dfScenario 10))]) :=
  ⟨⟨rfl, rfl, by decide⟩,
    (C7_popular_routes dfScenario 10 rfl rfl (by decide)).1⟩

/-! ### Claim C4 -/

/-- Unfolding of the order on `Q`. -/
theorem Q_le_def (a b : Q) :
    (a ≤ b) = (a.num * (b.den : Int) ≤ b.num * (a.den : Int)) := rfl

/-- `p ≤ a` and `a ≤ b` (integer constants) give `p ≤ b`. -/
theorem Q_le_const_mono (p : Q) (a b : Int) (hab : a ≤ b)
    (h : p ≤ ({ num := a, den := 1 } : Q)) : p ≤ ({ num := b, den := 1 } : Q) := by
  rw [Q_le_def] at h ⊢
  have hd : (0 : Int) ≤ (p.den : Int) := Int.ofNat_nonneg _
  exact le_trans h (mul_le_mul_of_nonneg_right hab hd)

/-- The four `pd.cut` buckets characterized: each is the left-open
right-closed interval of its bin edges, and a price is categorized at all
iff it is strictly positive. -/
theorem categorize_eq_iff (p : Q) :
    (categorize p = some "Budget" ↔ 0 < p ∧ p ≤ 200) ∧
    (categorize p = some "Economy" ↔ 200 < p ∧ p ≤ 500) ∧
    (categorize p = some "Premium" ↔ 500 < p ∧ p ≤ 1000) ∧
    (categorize p = some "Luxury" ↔ 1000 < p) ∧
    ((categorize p).isSome = true ↔ 0 < p) := by
  have m1 : p ≤ 200 → p ≤ 500 := fun h => Q_le_const_mono p 200 500 (by omega) h
  have m2 : p ≤ 200 → p ≤ 1000 := fun h => Q_le_const_mono p 200 1000 (by omega) h
  have m3 : p ≤ 500 → p ≤ 1000 := fun h => Q_le_const_mono p 500 1000 (by omega) h
  have m4 : p ≤ 0 → p ≤ 200 := fun h => Q_le_const_mono p 0 200 (by omega) h
  have m5 : p ≤ 0 → p ≤ 500 := fun h => Q_le_const_mono p 0 500 (by omega) h
  have m6 : p ≤ 0 → p ≤ 1000 := fun h => Q_le_const_mono p 0 1000 (by omega) h
  have e1 : (200 < p) = ¬ (p ≤ 200) := rfl
  have e2 : (500 < p) = ¬ (p ≤ 500) := rfl
  have e3 : (1000 < p) = ¬ (p ≤ 1000) := rfl
  have e0 : (0 < p) = ¬ (p ≤ 0) := rfl
  unfold categorize
  split_ifs with h1 h2 h3 h4
  · refine ⟨by simp [h1], ?_, ?_, ?_, by simp [h1]⟩
    · exact ⟨fun h => absurd h (by decide), fun ha => absurd h1.2 (e1 ▸ ha.1)⟩
    · exact ⟨fun h => absurd h (by decide), fun ha => absurd (m1 h1.2) (e2 ▸ ha.1)⟩
    · exact ⟨fun h => absurd h (by decide), fun ha => absurd (m2 h1.2) (e3 ▸ ha)⟩
  · refine ⟨?_, by simp [h2], ?_, ?_, ?_⟩
    · exact ⟨fun h => absurd h (by decide), fun hb => absurd hb h1⟩
    · exact ⟨fun h => absurd h (by decide), fun ha => absurd h2.2 (e2 ▸ ha.1)⟩
    · exact ⟨fun h => absurd h (by decide), fun ha => absurd (m3 h2.2) (e3 ▸ ha)⟩
    · simp only [Option.isSome_some, true_iff]
      exact e0 ▸ fun hle => (e1 ▸ h2.1) (m4 hle)
  · refine ⟨?_, ?_, by simp [h3], ?_, ?_⟩
    · exact ⟨fun h => absurd h (by decide), fun hb => absurd hb h1⟩
    · exact ⟨fun h => absurd h (by decide), fun hb => absurd hb h2⟩
    · exact ⟨fun h => absurd h (by decide), fun ha => absurd h3.2 (e3 ▸ ha)⟩
    · simp only [Option.isSome_some, true_iff]
      exact e0 ▸ fun hle => (e2 ▸ h3.1) (m5 hle)
  · refine ⟨?_, ?_, ?_, by simp [h4], ?_⟩
    · exact ⟨fun h => absurd h (by decide), fun hb => absurd hb h1⟩
    · exact ⟨fun h => absurd h (by decide), fun hb => absurd hb h2⟩
    · exact ⟨fun h => absurd h (by decide), fun hb => absurd hb h3⟩
    · simp only [Option.isSome_some, true_iff]
      exact e0 ▸ fun hle => (e3 ▸ h4) (m6 hle)
  · refine ⟨?_, ?_, ?_, ?_, ?_⟩
    · exact ⟨fun h => absurd h (by simp), fun hb => absurd hb h1⟩
    · exact ⟨fun h => absurd h (by simp), fun hb => absurd hb h2⟩
    · exact ⟨fun h => absurd h (by simp), fun hb => absurd hb h3⟩
    · exact ⟨fun h => absurd h (by simp), fun hb => absurd hb h4⟩
    · simp only [Option.isSome_none, Bool.false_eq_true, false_iff]
      intro hp0
      by_cases hb1 : p ≤ 200
      · exact h1 ⟨hp0, hb1⟩
      · by_cases hb2 : p ≤ 500
        · exact h2 ⟨e1 ▸ hb1, hb2⟩
        · by_cases hb3 : p ≤ 1000
          · exact h3 ⟨e2 ▸ hb2, hb3⟩
          · exact h4 (e3 ▸ hb3)

/-- The claim's left-closed right-open bucket count `[lo, hi)` (a definition
following the spec's words, for comparison with the code's buckets). -/
def specBucketCount (df : DF) (lo hi : Q) : Nat :=
  (df.rows.filter (fun r =>
    match r.price with
    | some p => decide (lo ≤ p) && decide (p < hi)
    | none => false)).length

/-- A two-row table with prices 0 and 200. -/
def dfC4 : DF :=
  { cols := { price := true }
    rows := [{ price := some 0 }, { price := some 200 }] }

/-- Counterexample to C4 as stated: the code's buckets are right-closed, so
the price 200 lands in Budget (count 1) and the code's Economy count is 0,
while the claim's [200,500) bucket holds that row; and the price 0 falls in
no code bucket at all, so the category counts sum to 1, not to the 2 rows
with a non-null price. -/
theorem C4_counterexample :
    priceCategoriesList dfC4 = [("Budget", 1), ("Economy", 0), ("Premium", 0), ("Luxury", 0)] ∧
    catCount dfC4 "Economy" = 0 ∧
    specBucketCount dfC4 200 500 = 1 ∧
    catCount dfC4 "Budget" + catCount dfC4 "Economy" + catCount dfC4 "Premium" +
      catCount dfC4 "Luxury" = 1 ∧
    (dfC4.rows.filter (fun r => r.price.isSome)).length = 2 := by
  refine ⟨by decide, by decide, by decide, by decide, by decide⟩

/-- Per-row bucket indicators: each strictly positive price is counted in
exactly one right-closed bucket; a price ≤ 0 or missing in none. -/
theorem catCount_indicator (po : Option Q) :
    (if po.bind categorize == some "Budget" then 1 else 0) +
      (if po.bind categorize == some "Economy" then 1 else 0) +
      (if po.bind categorize == some "Premium" then 1 else 0) +
      (if po.bind categorize == some "Luxury" then 1 else 0) =
      (if (match po with | some p => decide (0 < p) | none => false) = true
        then 1 else 0) := by
  cases po with
  | none => rfl
  | some p =>
    obtain ⟨hb, he, hpr, hl, hs⟩ := categorize_eq_iff p
    simp only [Option.bind_some]
    rcases hc : categorize p with _ | l
    · have hneg : ¬ 0 < p := by
        rw [← hs, hc]
        simp
      simp [hc, hneg]
    · have hpos : 0 < p := by
        rw [← hs, hc]
        rfl
      have hcases : l = "Budget" ∨ l = "Economy" ∨ l = "Premium" ∨ l = "Luxury" := by
        unfold categorize at hc
        split_ifs at hc <;> simp only [Option.some.injEq] at hc <;> simp [← hc]
      rcases hcases with rfl | rfl | rfl | rfl <;> simp [hc, hpos]

/-- Lengths of a filtered cons as an indicator sum. -/
theorem length_filter_cons {α : Type} (p : α → Bool) (a : α) (l : List α) :
    (List.filter p (a :: l)).length = (if p a then 1 else 0) + (List.filter p l).length := by
  by_cases h : p a <;> simp [List.filter_cons, h] <;> omega

/-- C4 (amended): `pd.cut` with the default `right=True` buckets each price
into the left-open right-closed intervals (0,200], (200,500], (500,1000],
(1000,∞) — not the claim's left-closed right-open ones — and prices ≤ 0 fall
into no bucket, so the category counts sum to the number of rows with a
strictly positive price rather than to all rows with a non-null price. -/
theorem C4_price_categories (df : DF) (hp : df.cols.price = true) :
    analyze_price_distribution df = .ok (addPriceCategory df,
      [("price_stats", .stats (priceStatsOf df)),
       ("price_categories", .cats (priceCategoriesList df))]) ∧
    catCount df "Budget" + catCount df "Economy" + catCount df "Premium" +
        catCount df "Luxury" =
      (df.rows.filter (fun r =>
        match r.price with
        | some p => decide (0 < p)
        | none => false)).length ∧
    catCount df "Budget" = (df.rows.filter (fun r =>
      match r.price with
      | some p => decide (0 < p) && decide (p ≤ 200)
      | none => false)).length ∧
    catCount df "Economy" = (df.rows.filter (fun r =>
      match r.price with
      | some p => decide (200 < p) && decide (p ≤ 500)
      | none => false)).length ∧
    catCount df "Premium" = (df.rows.filter (fun r =>
      match r.price with
      | some p => decide (500 < p) && decide (p ≤ 1000)
      | none => false)).length ∧
    catCount df "Luxury" = (df.rows.filter (fun r =>
      match r.price with
      | some p => decide (1000 < p)
      | none => false)).length := by
  refine ⟨by simp [analyze_price_distribution, hp], ?_, ?_, ?_, ?_, ?_⟩
  · unfold catCount
    induction df.rows with
    | nil => rfl
    | cons r rs ih =>
      rw [length_filter_cons, length_filter_cons, length_filter_cons, length_filter_cons,
        length_filter_cons]
      have hind := catCount_indicator r.price
      omega
  all_goals
    unfold catCount
  all_goals
    apply congrArg List.length
  all_goals
    apply List.filter_congr
  all_goals
    intro r _
  all_goals
    cases hpo : r.price with
    | none => rfl
    | some p =>
      obtain ⟨hb, he, hpr, hl, hs⟩ := categorize_eq_iff p
      simp only [Option.bind_some]
      rw [Bool.eq_iff_iff]
      simp only [beq_iff_eq, Bool.and_eq_true, decide_eq_true_eq]
      first
      | exact hb
      | exact he
      | exact hpr
      | exact hl

/-- Witness for C4 (amended) at the two-row table with prices 0 and 200. -/
theorem C4_witness :
    dfC4.cols.price = true ∧
    catCount dfC4 "Budget" + catCount dfC4 "Economy" + catCount dfC4 "Premium" +
        catCount dfC4 "Luxury" =
      (dfC4.rows.filter (fun r =>
        match r.price with
        | some p => decide (0 < p)
        | none => false)).length :=
  ⟨by decide, (C4_price_categories dfC4 (by decide)).2.1⟩

/-! ### Claim C3 -/

/-- The claim's per-row description of imputation: an existing price is
kept; a missing price takes its route median; a row whose route has no
priced rows takes the median of the price column after the route fill. -/
def imputedPriceSpec (df : DF) (r : Row) : Option Q :=
  match r.price with
  | some p => some p
  | none =>
    match routeMedian df r.origin r.destination with
    | some m => some m
    | none => medianQ ((fillRouteMedians df).filterMap (·.price))

theorem map_eq_self_of_eq {α : Type} {f : α → α} {l : List α}
    (h : ∀ a ∈ l, f a = a) : l.map f = l := by
  induction l with
  | nil => rfl
  | cons a t ih =>
    rw [List.map_cons, h a (List.mem_cons_self a t), ih (fun b hb => h b (List.mem_cons_of_mem a hb))]

theorem imputePrices_pointwise (df : DF)
    (hp : df.cols.price = true) (ho : df.cols.origin = true) (hd : df.cols.destination = true)
    (hnn : ∃ r ∈ df.rows, r.price.isSome = true) :
    imputePrices df = .ok { df with
      rows := df.rows.map (fun r => { r with price := imputedPriceSpec df r }) } := by
  unfold imputePrices
  rw [hp, ho, hd]
  simp only [Bool.true_and, Bool.and_self, if_true]
  cases hany : df.rows.any (fun r => r.price.isNone) with
  | false =>
    simp only [Bool.false_eq_true, if_false]
    have hall : ∀ r ∈ df.rows, r.price.isSome = true := by
      intro r hr
      rcases hpr : r.price with _ | p
      · have hx : r.price.isNone = true := by rw [hpr]; rfl
        have hy : df.rows.any (fun s => s.price.isNone) = true :=
          List.any_eq_true.mpr ⟨r, hr, hx⟩
        rw [hany] at hy
        cases hy
      · rfl
    have hmap : df.rows.map (fun r => { r with price := imputedPriceSpec df r }) = df.rows := by
      apply map_eq_self_of_eq
      intro r hr
      rcases hpr : r.price with _ | p
      · have := hall r hr
        rw [hpr] at this
        exact absurd this (by simp)
      · show ({ r with price := imputedPriceSpec df r } : Row) = r
        unfold imputedPriceSpec
        rw [hpr]
        simp only []
        rw [← hpr]
    rw [hmap]
  | true =>
    simp only [if_true]
    obtain ⟨r0, hr0, hs0⟩ := hnn
    obtain ⟨p0, hp0⟩ := Option.isSome_iff_exists.mp hs0
    have hmem : p0 ∈ (fillRouteMedians df).filterMap (·.price) := by
      apply List.mem_filterMap.mpr
      refine ⟨(fun r => if r.price.isSome then r
        else match routeMedian df r.origin r.destination with
          | some m => { r with price := some m }
          | none => r) r0, ?_, ?_⟩
      · exact List.mem_map.mpr ⟨r0, hr0, rfl⟩
      · simp only [hs0, if_true]
        exact hp0
    have hne : (fillRouteMedians df).filterMap (·.price) ≠ [] :=
      List.ne_nil_of_mem hmem
    obtain ⟨g, hg⟩ := Option.isSome_iff_exists.mp (medianQ_isSome_of_ne_nil hne)
    have hrows : fillGlobalMedian (fillRouteMedians df) =
        df.rows.map (fun r => { r with price := imputedPriceSpec df r }) := by
      unfold fillGlobalMedian
      rw [hg]
      simp only []
      conv_lhs => rw [fillRouteMedians]
      rw [List.map_map]
      apply List.map_congr_left
      intro r hr
      simp only [Function.comp]
      rcases hpr : r.price with _ | p
      · rcases hrm : routeMedian df r.origin r.destination with _ | m
        · simp only [imputedPriceSpec, hpr, hrm, hg, Option.isSome_none, Option.isSome_some,
            Bool.false_eq_true, if_false, if_true]
        · simp only [imputedPriceSpec, hpr, hrm, Option.isSome_none, Option.isSome_some,
            Bool.false_eq_true, if_false, if_true]
      · simp only [imputedPriceSpec, hpr, Option.isSome_some, if_true]
        rw [← hpr]
    rw [hrows]


theorem convertDates_rows (df : DF) : (convertDates df).rows = df.rows := by
  unfold convertDates
  split <;> rfl

theorem dedupRowsAux_subset :
    ∀ (rs : List Row) seen, ∀ r ∈ dedupRowsAux seen rs, r ∈ rs := by
  intro rs
  induction rs with
  | nil => intro seen r h; cases h
  | cons a t ih =>
    intro seen r h
    unfold dedupRowsAux at h
    by_cases hk : seen.contains (dupKey a)
    · rw [if_pos hk] at h
      exact List.mem_cons_of_mem a (ih seen r h)
    · rw [if_neg hk] at h
      rcases List.mem_cons.mp h with rfl | h2
      · exact List.mem_cons_self _ _
      · exact List.mem_cons_of_mem a (ih _ r h2)

theorem dedupStep_ok_sub {df y : DF} (h : dedupStep df = .ok y) :
    (∀ r ∈ y.rows, r ∈ df.rows) ∧ y.cols = df.cols := by
  unfold dedupStep at h
  by_cases h3 : 3 < numCols df.cols
  · rw [if_pos h3] at h
    cases hf : (df.cols.flight_date && df.cols.flight_time && df.cols.origin &&
        df.cols.destination && df.cols.airline) <;> rw [hf] at h
    · cases h
    · simp only [if_true] at h
      cases h
      exact ⟨fun r hr => dedupRowsAux_subset df.rows [] r hr, rfl⟩
  · rw [if_neg h3] at h
    cases h
    exact ⟨fun r hr => hr, rfl⟩

theorem removeOutliers_sub (df : DF) : ∀ r ∈ (removeOutliers df).rows, r ∈ df.rows := by
  intro r hr
  unfold removeOutliers at hr
  by_cases hp : df.cols.price = true
  · rw [if_pos hp] at hr
    simp only [] at hr
    split at hr
    · exact List.mem_of_mem_filter hr
    · cases hr
  · rw [if_neg hp] at hr
    exact hr

theorem deriveCalendar_price (df : DF) :
    ∀ r2 ∈ (deriveCalendar df).rows, ∃ r ∈ df.rows, r2.price = r.price := by
  intro r2 hr2
  unfold deriveCalendar at hr2
  by_cases hc : (df.cols.flight_date && df.dateParsed) = true
  · rw [hc] at hr2
    simp only [if_true] at hr2
    obtain ⟨r, hr, heq⟩ := List.mem_map.mp hr2
    refine ⟨r, hr, ?_⟩
    rw [← heq]
    rcases hfd : r.flight_date with _ | d <;> simp [hfd]
  · rw [Bool.not_eq_true] at hc
    rw [hc] at hr2
    simp only [Bool.false_eq_true, if_false] at hr2
    exact ⟨r2, hr2, rfl⟩

theorem fillRoute_col_ne_nil (df : DF) (hnn : ∃ r ∈ df.rows, r.price.isSome = true) :
    (fillRouteMedians df).filterMap (·.price) ≠ [] := by
  obtain ⟨r0, hr0, hs0⟩ := hnn
  obtain ⟨p0, hp0⟩ := Option.isSome_iff_exists.mp hs0
  have hmem : p0 ∈ (fillRouteMedians df).filterMap (·.price) := by
    apply List.mem_filterMap.mpr
    refine ⟨(fun r => if r.price.isSome then r
      else match routeMedian df r.origin r.destination with
        | some m => { r with price := some m }
        | none => r) r0, ?_, ?_⟩
    · exact List.mem_map.mpr ⟨r0, hr0, rfl⟩
    · simp only [hs0, if_true]
      exact hp0
  exact List.ne_nil_of_mem hmem

theorem imputedPriceSpec_isSome (df : DF) (hnn : ∃ r ∈ df.rows, r.price.isSome = true)
    (r : Row) : (imputedPriceSpec df r).isSome = true := by
  unfold imputedPriceSpec
  rcases hpr : r.price with _ | p
  · rcases hrm : routeMedian df r.origin r.destination with _ | m
    · simp only []
      exact medianQ_isSome_of_ne_nil (fillRoute_col_ne_nil df hnn)
    · rfl
  · rfl

theorem dedupStep_exists_ok (d : DF)
    (hflags : 3 < numCols d.cols → d.cols.flight_date = true ∧ d.cols.flight_time = true ∧
      d.cols.origin = true ∧ d.cols.destination = true ∧ d.cols.airline = true) :
    ∃ y, dedupStep d = .ok y := by
  by_cases h3 : 3 < numCols d.cols
  · obtain ⟨h1, h2, h4, h5, h6⟩ := hflags h3
    refine ⟨{ d with rows := dedupRowsAux [] d.rows }, ?_⟩
    unfold dedupStep
    rw [if_pos h3, h1, h2, h4, h5, h6]
    rfl
  · exact ⟨d, by simp [dedupStep, h3]⟩

theorem cleanData_price_filled (df : DF)
    (hp : df.cols.price = true) (ho : df.cols.origin = true) (hd : df.cols.destination = true)
    (hnn : ∃ r ∈ df.rows, r.price.isSome = true)
    (hded : 3 < numCols df.cols →
      df.cols.flight_date = true ∧ df.cols.flight_time = true ∧ df.cols.origin = true ∧
        df.cols.destination = true ∧ df.cols.airline = true) :
    ∃ out, clean_data (some df) = .ok (some out) ∧ ∀ r ∈ out.rows, r.price.isSome = true := by
  have hrne : df.rows ≠ [] := by
    obtain ⟨r0, hr0, _⟩ := hnn
    exact List.ne_nil_of_mem hr0
  have hne : df.rows.isEmpty = false := by
    cases hrr : df.rows
    · exact absurd hrr hrne
    · rfl
  have hx := imputePrices_pointwise df hp ho hd hnn
  have hall1 : ∀ r1 ∈ ({ df with
      rows := df.rows.map (fun r => { r with price := imputedPriceSpec df r }) } : DF).rows,
      r1.price.isSome = true := by
    intro r1 h1
    obtain ⟨r, hr, heq⟩ := List.mem_map.mp h1
    rw [← heq]
    exact imputedPriceSpec_isSome df hnn r
  have hcols2 : (convertDates { df with
      rows := df.rows.map (fun r => { r with price := imputedPriceSpec df r }) }).cols =
      df.cols := by
    rw [convertDates_cols]
  obtain ⟨y, hy⟩ := dedupStep_exists_ok (convertDates { df with
      rows := df.rows.map (fun r => { r with price := imputedPriceSpec df r }) })
    (fun h3 => by
      have h4 := hded (by rwa [hcols2] at h3)
      rw [hcols2]
      exact h4)
  obtain ⟨hysub, hycols⟩ := dedupStep_ok_sub hy
  refine ⟨deriveCalendar (removeOutliers y), ?_, ?_⟩
  · simp only [clean_data, hne, Bool.false_eq_true, if_false]
    have hct : cleanTable df = .ok (deriveCalendar (removeOutliers y)) := by
      unfold cleanTable
      rw [hx]
      simp only [bind, Except.bind]
      rw [hy]
    rw [hct]
    rfl
  · intro r2 hr2
    obtain ⟨rb, hrb, heqp⟩ := deriveCalendar_price (removeOutliers y) r2 hr2
    have hm1 : rb ∈ y.rows := removeOutliers_sub y rb hrb
    have hm2 := hysub rb hm1
    rw [convertDates_rows] at hm2
    rw [heqp]
    exact hall1 rb hm2

/-- The global median price of a table as the claim reads it: the median
over the table's non-null prices (a definition following the spec's words,
for comparison with the code's fallback). -/
def specGlobalMedian (df : DF) : Option Q := medianQ (df.rows.filterMap (·.price))

/-- Five rows: route A→B has prices 100, 200 and a null; C→D has 400; E→F
has only a null price. -/
def dfC3 : DF :=
  { cols := { origin := true, destination := true, price := true }
    rows := [{ origin := "A", destination := "B", price := some 100 },
             { origin := "A", destination := "B", price := some 200 },
             { origin := "A", destination := "B", price := none },
             { origin := "C", destination := "D", price := some 400 },
             { origin := "E", destination := "F", price := none }] }

/-- Counterexample to C3 as stated: the E→F row's pair has no priced rows,
and the claim says it receives the global median price — the median of the
table's prices, 200.  The code instead fills it with 175, the median of the
price column *after* the A→B route median 150 has been imputed (the 400 row
is later dropped by the outlier fence). -/
theorem C3_counterexample :
    routeMedian dfC3 "E" "F" = none ∧
    specGlobalMedian dfC3 = some 200 ∧
    (clean_data (some dfC3)).map (fun o => o.map (fun d =>
        d.rows.map (fun r => (r.origin, r.price)))) =
      .ok (some [("A", some 100), ("A", some 200), ("A", some 150), ("E", some 175)]) ∧
    some (175 : Q) ≠ some (200 : Q) := by
  refine ⟨by decide, by decide, by decide, by decide⟩

/-- C3 (amended): after `clean_data` on a table whose price column has at
least one non-null value (and whose column set supports the pipeline, as in
C1), no surviving row has a null price; imputation gives every row exactly
the claim's per-row value, except that the fallback for a route with no
priced rows is the median of the price column *after* per-route imputation,
not the median of the input's non-null prices. -/
theorem C3_price_imputation (df : DF)
    (hp : df.cols.price = true) (ho : df.cols.origin = true) (hd : df.cols.destination = true)
    (hnn : ∃ r ∈ df.rows, r.price.isSome = true)
    (hded : 3 < numCols df.cols →
      df.cols.flight_date = true ∧ df.cols.flight_time = true ∧ df.cols.origin = true ∧
        df.cols.destination = true ∧ df.cols.airline = true) :
    imputePrices df = .ok { df with
      rows := df.rows.map (fun r => { r with price := imputedPriceSpec df r }) } ∧
    ∃ out, clean_data (some df) = .ok (some out) ∧ ∀ r ∈ out.rows, r.price.isSome = true :=
  ⟨imputePrices_pointwise df hp ho hd hnn, cleanData_price_filled df hp ho hd hnn hded⟩

/-- Witness for C3 (amended) at the three-column table `dfC1w`. -/
theorem C3_witness :
    dfC1w.cols.price = true ∧
    (∃ r ∈ dfC1w.rows, r.price.isSome = true) ∧
    (imputePrices dfC1w = .ok { dfC1w with
        rows := dfC1w.rows.map (fun r => { r with price := imputedPriceSpec dfC1w r }) } ∧
      ∃ out, clean_data (some dfC1w) = .ok (some out) ∧
        ∀ r ∈ out.rows, r.price.isSome = true) :=
  ⟨by decide, by decide,
    C3_price_imputation dfC1w (by decide) (by decide) (by decide) (by decide) (by decide)⟩

/-! ### Claim C8 -/

/-- The day step sets the weekend premium to
`round((weekend mean / weekday mean - 1) * 100, 1)` whenever both subsets
are non-empty, both means exist and the weekday mean is non-zero. -/
theorem summaryDayStep_premium (df : DF) (s4 s5 : Summary) (mw md : Q)
    (h : summaryDayStep df s4 = .ok s5)
    (hwk : df.cols.is_weekend = true) (hp : df.cols.price = true)
    (hwe : 0 < (df.rows.filter (·.is_weekend)).length)
    (hwd : 0 < (df.rows.filter (fun r => !r.is_weekend)).length)
    (hmw : meanQ ((df.rows.filter (·.is_weekend)).filterMap (·.price)) = some mw)
    (hmd : meanQ ((df.rows.filter (fun r => !r.is_weekend)).filterMap (·.price)) = some md)
    (hmd0 : md ≠ 0) (hdow : df.cols.day_of_week = true) :
    s5.weekend_price_premium = some (roundQ1 ((mw / md - 1) * 100)) := by
  have hbeq : (md == 0) = false := by
    cases hb : md == 0
    · rfl
    · exact absurd (eq_of_beq hb) hmd0
  unfold summaryDayStep at h
  rw [hdow, hwk, hp] at h
  simp only [Bool.and_self, if_true] at h
  cases hvc : (valueCounts (df.rows.filterMap (fun r => r.day_of_week))).head? with
  | none => rw [hvc] at h; cases h
  | some kc =>
    rw [hvc] at h
    simp only [] at h
    rw [if_pos ⟨hwe, hwd⟩] at h
    rw [hmw, hmd] at h
    simp only [] at h
    rw [hbeq] at h
    simp only [Bool.false_eq_true, if_false] at h
    cases h
    rfl

/-- The month step never touches the weekend premium. -/
theorem summaryMonthStep_premium (df : DF) (s5 s6 : Summary)
    (h : summaryMonthStep df s5 = .ok s6) :
    s6.weekend_price_premium = s5.weekend_price_premium := by
  unfold summaryMonthStep at h
  cases hm : df.cols.month with
  | false => rw [hm] at h; simp only [Bool.false_eq_true, if_false] at h; cases h; rfl
  | true =>
    rw [hm] at h
    simp only [if_true] at h
    cases hvc : (valueCounts (df.rows.filterMap (fun r => r.month))).head? with
    | none => rw [hvc] at h; cases h
    | some kc =>
      rw [hvc] at h
      simp only [] at h
      cases hmn : monthName kc.1 with
      | none => rw [hmn] at h; cases h
      | some nm => rw [hmn] at h; cases h; rfl

/-- C8: whenever the cleaned table has both a non-empty weekend subset and a
non-empty weekday subset with prices (their means exist and the weekday mean
is non-zero), the summary's `weekend_price_premium` equals
`round(((mean weekend price / mean weekday price) − 1) × 100, 1)`. -/
theorem C8_weekend_premium (df : DF) (out : DF × List (String × InsightVal)) (s : Summary)
    (mw md : Q)
    (hrun : generate_summary_insights df = .ok out)
    (hsum : out.2 = [("summary", .summary s)])
    (hdow : df.cols.day_of_week = true) (hwk : df.cols.is_weekend = true)
    (hp : df.cols.price = true)
    (hwe : 0 < (df.rows.filter (·.is_weekend)).length)
    (hwd : 0 < (df.rows.filter (fun r => !r.is_weekend)).length)
    (hmw : meanQ ((df.rows.filter (·.is_weekend)).filterMap (·.price)) = some mw)
    (hmd : meanQ ((df.rows.filter (fun r => !r.is_weekend)).filterMap (·.price)) = some md)
    (hmd0 : md ≠ 0) :
    s.weekend_price_premium = some (roundQ1 ((mw / md - 1) * 100)) := by
  unfold generate_summary_insights at hrun
  cases hd : summaryDayStep df (summaryBase df) with
  | error e => rw [hd] at hrun; cases hrun
  | ok s5 =>
    rw [hd] at hrun
    simp only [bind, Except.bind] at hrun
    cases hm : summaryMonthStep df s5 with
    | error e => rw [hm] at hrun; cases hrun
    | ok s6 =>
      rw [hm] at hrun
      cases hrun
      simp only [List.cons.injEq, Prod.mk.injEq, InsightVal.summary.injEq, and_true,
        true_and] at hsum
      rw [← hsum]
      rw [summaryMonthStep_premium df s5 s6 hm]
      exact summaryDayStep_premium df (summaryBase df) s5 mw md hd hwk hp hwe hwd hmw hmd
        hmd0 hdow

/-- The spec's weekend-premium scenario table: weekend rows at 200, weekday
rows at 100. -/
def dfC8 : DF :=
  { cols := { price := true, day_of_week := true, is_weekend := true }
    rows := [{ price := some 200, day_of_week := some 5, is_weekend := true },
             { price := some 100, day_of_week := some 0, is_weekend := false }] }

/-- The summary the source computes for `dfC8`. -/
def sC8 : Summary :=
  { total_flights := 2, avg_price := some 150, median_price := some 150,
    busiest_day := some "Saturday", weekend_price_premium := some 100 }

/-- Witness for C8 at the scenario table: the premium is exactly 100.0. -/
theorem C8_witness :
    generate_summary_insights dfC8 = .ok (dfC8, [("summary", .summary sC8)]) ∧
    (dfC8, [("summary", InsightVal.summary sC8)]).2 = [("summary", InsightVal.summary sC8)] ∧
    meanQ ((dfC8.rows.filter (·.is_weekend)).filterMap (·.price)) = some 200 ∧
    meanQ ((dfC8.rows.filter (fun r => !r.is_weekend)).filterMap (·.price)) = some 100 ∧
    sC8.weekend_price_premium = some (roundQ1 ((200 / 100 - 1) * 100)) ∧
    roundQ1 ((200 / 100 - 1) * 100) = 100 :=
  ⟨by decide, by decide, by decide, by decide,
    C8_weekend_premium dfC8 (dfC8, [("summary", .summary sC8)]) sC8 200 100
      (by decide) (by decide) (by decide) (by decide) (by decide) (by decide)
      (by decide) (by decide) (by decide) (by decide),
    by decide⟩

/-! ### Claim C9 -/

/-- C9: when the insights mapping is non-empty, `get_insights` called with a
category string that is not a present key returns the entire mapping (for
the falsy empty string as well); when no analyses have run it returns an
empty mapping. -/
theorem C9_get_insights_fallback {α : Type} (ins : List (String × α)) (c : String)
    (hne : ins ≠ []) (habs : ins.lookup c = none) :
    get_insights ins (some c) = .mapping ins ∧
      ∀ cat : Option String, get_insights ([] : List (String × α)) cat = .mapping [] := by
  constructor
  · unfold get_insights
    have hempty : ins.isEmpty = false := by
      cases ins with
      | nil => exact absurd rfl hne
      | cons a t => rfl
    rw [hempty]
    by_cases hc : c = ""
    · simp [hc]
    · simp [hc, habs]
  · intro cat
    unfold get_insights
    rfl

/-- Witness for C9 at a concrete mapping and missing category. -/
theorem C9_witness :
    ([("popular_routes", 1)] : List (String × Nat)) ≠ [] ∧
    ([("popular_routes", 1)] : List (String × Nat)).lookup "nonsense" = none ∧
    (get_insights [("popular_routes", 1)] (some "nonsense") = .mapping [("popular_routes", 1)] ∧
      ∀ cat : Option String, get_insights ([] : List (String × Nat)) cat = .mapping []) :=
  ⟨by decide, by decide,
    C9_get_insights_fallback [("popular_routes", 1)] "nonsense" (by decide) (by decide)⟩

/-! ### Claim C10 -/

/-- The route-type selection of `filter_data` as a row predicate. -/
def routeSel (route_types : List String) (r : Row) : Bool :=
  if route_types.contains "Domestic" && route_types.contains "International" then true
  else if route_types.contains "Domestic" then r.is_domestic
  else if route_types.contains "International" then !r.is_domestic
  else true

/-- The inclusive price-range selection of `filter_data` as a row predicate
(vacuous when the table has no price column; a null price fails the range
test, as NaN comparisons are False). -/
def priceSel (c : Cols) (pr : Q × Q) (r : Row) : Bool :=
  if c.price then
    match r.price with
    | some p => decide (pr.1 ≤ p) && decide (p ≤ pr.2)
    | none => false
  else true

/-- `l.contains a` agrees with decidable membership. -/
theorem contains_eq_decide_mem {α : Type} [DecidableEq α] (l : List α) (a : α) :
    l.contains a = decide (a ∈ l) := by
  by_cases hm : a ∈ l
  · calc l.contains a = l.elem a := rfl
      _ = true := List.elem_iff.mpr hm
      _ = decide (a ∈ l) := (decide_eq_true hm).symm
  · have h1 : l.elem a = false := by
      cases he : l.elem a
      · rfl
      · exact absurd (List.elem_iff.mp he) hm
    calc l.contains a = l.elem a := rfl
      _ = false := h1
      _ = decide (a ∈ l) := (decide_eq_false hm).symm

/-- C10: `filter_data` returns an empty frame on null or empty input, and
otherwise returns exactly the input rows, in input order, that satisfy the
route-type selection on `is_domestic` and, when a price column exists, whose
price lies within the inclusive selected range; the input table itself is
never modified (the embedding is functional and the result is a filter of
the input). -/
theorem C10_filter_data (df : DF) (rts : List String) (pr : Q × Q)
    (hdom : df.cols.is_domestic = true) :
    filter_data none rts pr = .ok emptyDF ∧
    (df.rows = [] → filter_data (some df) rts pr = .ok emptyDF) ∧
    (df.rows ≠ [] → filter_data (some df) rts pr =
      .ok { df with rows := df.rows.filter (fun r => routeSel rts r && priceSel df.cols pr r) }) := by
  refine ⟨rfl, ?_, ?_⟩
  · intro h
    unfold filter_data
    simp [h]
  · intro h
    have hne : df.rows.isEmpty = false := by
      cases hr : df.rows with
      | nil => exact absurd hr h
      | cons a t => rfl
    simp only [filter_data, hne, Bool.false_eq_true, if_false]
    cases hD : rts.contains "Domestic" <;> cases hI : rts.contains "International" <;>
      cases hP : df.cols.price <;>
      simp only [hD, hI, hP, Bool.and_self, Bool.and_true, Bool.and_false, Bool.true_and,
        Bool.false_and, if_true, if_false, hdom, Bool.false_eq_true, bind, Except.bind,
        Except.ok.injEq] <;>
      try rfl
    all_goals
      try rw [List.filter_filter]
    all_goals
      rw [contains_eq_decide_mem] at hD hI
    all_goals
      simp only [routeSel, priceSel, contains_eq_decide_mem, hD, hI, hP, if_true, if_false,
        Bool.true_and, Bool.false_and, Bool.and_true, Bool.and_false, Bool.and_self,
        Bool.false_eq_true, List.filter_true]
    all_goals
      first
      | rfl
      | (simp only [Bool.and_comm])

/-- Witness for C10 at a concrete four-row table with the domestic-only
selection and range 0..5000. -/
theorem C10_witness :
    dfScenario.cols.is_domestic = true ∧
    (filter_data none ["Domestic"] ((0 : Q), (5000 : Q)) = .ok emptyDF ∧
      (dfScenario.rows = [] →
        filter_data (some dfScenario) ["Domestic"] ((0 : Q), (5000 : Q)) = .ok emptyDF) ∧
      (dfScenario.rows ≠ [] →
        filter_data (some dfScenario) ["Domestic"] ((0 : Q), (5000 : Q)) =
          .ok { dfScenario with rows := dfScenario.rows.filter (fun r =>
            routeSel ["Domestic"] r && priceSel dfScenario.cols ((0 : Q), (5000 : Q)) r) })) :=
  ⟨by decide, C10_filter_data dfScenario ["Domestic"] ((0 : Q), (5000 : Q)) (by decide)⟩

end AirlineDemand
